import Mathlib

/-!
Shallow embedding of `user_agent/base.py`: a generator of random but
internally consistent browser navigator configurations and User-Agent
HTTP headers.

Randomness is modelled explicitly: every call of Python's `random.choice`
or `random.randint` consumes one dedicated field of an `Rng` record
supplied by the caller, so "for every random draw" becomes a universal
quantification over `Rng`, and a fixed `Rng` plays the role of a fixed
seed of the shared random source.

Python exceptions are modelled by `Except GenError` (for `InvalidOption`)
and by `Option` results (for `assert` failures and impossible dictionary
lookups, which the specification classifies as programming-error
assertions).
-/

namespace UserAgent

/-- Proleptic Gregorian calendar date, modelling `datetime.datetime(y, m, d)`. -/
structure Datetime where
  year : Nat
  month : Nat
  day : Nat
  deriving DecidableEq, Repr

def datetime (y m d : Nat) : Datetime := ⟨y, m, d⟩

/-- Days since 0000-03-01 (Hinnant's `days_from_civil`, shifted so that the
result is a natural number for every year ≥ 1).  Gives meaning to `datetime`
subtraction and `timedelta` arithmetic of the source. -/
def daysFromCivil (dt : Datetime) : Nat :=
  let y := if dt.month ≤ 2 then dt.year - 1 else dt.year
  let era := y / 400
  let yoe := y % 400
  let doy := (153 * (if 2 < dt.month then dt.month - 3 else dt.month + 9) + 2) / 5 + dt.day - 1
  let doe := yoe * 365 + yoe / 4 - yoe / 100 + doy
  era * 146097 + doe

/-- Inverse calendar conversion (Hinnant's `civil_from_days`), used to model
`strftime` on a time expressed in seconds. -/
def civilFromDays (z : Nat) : Datetime :=
  let era := z / 146097
  let doe := z % 146097
  let yoe := (doe - doe / 1460 + doe / 36524 - doe / 146096) / 365
  let y := yoe + era * 400
  let doy := doe - (365 * yoe + yoe / 4 - yoe / 100)
  let mp := (5 * doy + 2) / 153
  let d := doy - (153 * mp + 2) / 5 + 1
  let m := if mp < 10 then mp + 3 else mp - 9
  ⟨if m ≤ 2 then y + 1 else y, m, d⟩

/-- A `datetime` as seconds since the epoch of `daysFromCivil` (midnight). -/
def datetimeSecs (dt : Datetime) : Nat := daysFromCivil dt * 86400

/-- Model of `random.choice(seq)`: the random source supplies an arbitrary
natural `k` and the element at index `k % len(seq)` is returned.  `d` is a
default for the empty sequence, which never occurs for the constant tables
of this module. -/
def pychoice (xs : List α) (k : Nat) (d : α) : α := (xs.get? (k % xs.length)).getD d

/-- Model of `random.randint(a, b)` (both bounds inclusive; used with `a ≤ b`). -/
def pyrandint (a b k : Nat) : Nat := a + k % (b - a + 1)

/-- One value for every random draw the generator can make during a single
call.  A fixed `Rng` corresponds to a fixed seed of the random source. -/
structure Rng where
  pickVariant : Nat
  sysPlatform : Nat
  sysCpu : Nat
  macChromeMinor : Nat
  androidDevice : Nat
  ffVersion : Nat
  ffOffset : Nat
  chromeBuildIdx : Nat
  chromeBuildNum : Nat
  chromePatch : Nat
  ieIdx : Nat
  deriving DecidableEq, Repr

/-- Python `s.startswith(pre)`. -/
def pystartswith (s pre : String) : Bool := pre.data.isPrefixOf s.data

/-- Index of the first occurrence of `sep` as a contiguous sublist of `l`. -/
def findSubstrIdx (sep : List Char) : List Char → Option Nat
  | [] => if sep.isPrefixOf [] then some 0 else none
  | c :: t => if sep.isPrefixOf (c :: t) then some 0 else (findSubstrIdx sep t).map (· + 1)

/-- Python `sub in s` (substring containment). -/
def pycontains (s sub : String) : Bool := (findSubstrIdx sub.data s.data).isSome

/-- Python `s.split(sep, 1)[1]`: everything after the first occurrence of
`sep`; `none` when `sep` does not occur, where Python would raise. -/
def pysplitOnceTail (s sep : String) : Option String :=
  (findSubstrIdx sep.data s.data).map fun i => ⟨s.data.drop (i + sep.data.length)⟩

/-- Python `s.split(" ")[-1]` for strings without a trailing space. -/
def lastSpaceToken (s : String) : String :=
  ⟨(s.data.reverse.takeWhile (fun c => c ≠ ' ')).reverse⟩

/-- `InvalidOption` is the user-facing error; `internalError` stands for the
programming-error assertions (`assert`, `KeyError`, unbound local) that the
source treats as unreachable. -/
inductive GenError where
  | invalidOption (msg : String)
  | internalError
  deriving DecidableEq, Repr

/-- A user-supplied filter value: a single string or a list of strings.
Python `None` is modelled by `Option OptValue`. -/
inductive OptValue where
  | str (s : String)
  | list (xs : List String)
  deriving DecidableEq, Repr

def DEVICE_TYPE_OS : String → List String
  | "desktop" => ["win", "mac", "linux"]
  | "smartphone" => ["android"]
  | "tablet" => ["android"]
  | _ => []

def DEVICE_TYPE_OS_KEYS : List String := ["desktop", "smartphone", "tablet"]

def OS_DEVICE_TYPE : String → List String
  | "win" => ["desktop"]
  | "linux" => ["desktop"]
  | "mac" => ["desktop"]
  | "android" => ["smartphone", "tablet"]
  | _ => []

def DEVICE_TYPE_NAVIGATOR : String → List String
  | "desktop" => ["chrome", "firefox", "ie"]
  | "smartphone" => ["firefox", "chrome"]
  | "tablet" => ["firefox", "chrome"]
  | _ => []

def NAVIGATOR_DEVICE_TYPE : String → List String
  | "ie" => ["desktop"]
  | "chrome" => ["desktop", "smartphone", "tablet"]
  | "firefox" => ["desktop", "smartphone", "tablet"]
  | _ => []

def OS_PLATFORM : String → List String
  | "win" =>
    ["Windows NT 5.1",
     "Windows NT 6.1",
     "Windows NT 6.2",
     "Windows NT 6.3",
     "Windows NT 10.0"]
  | "mac" =>
    ["Macintosh; Intel Mac OS X 10.8",
     "Macintosh; Intel Mac OS X 10.9",
     "Macintosh; Intel Mac OS X 10.10",
     "Macintosh; Intel Mac OS X 10.11",
     "Macintosh; Intel Mac OS X 10.12",
     "Macintosh; Intel Mac OS X 10.13",
     "Macintosh; Intel Mac OS X 10.14",
     "Macintosh; Intel Mac OS X 10.15"]
  | "linux" =>
    ["X11; Linux",
     "X11; Ubuntu; Linux"]
  | "android" =>
    ["Android 4.4",
     "Android 4.4.1",
     "Android 4.4.2",
     "Android 4.4.3",
     "Android 4.4.4",
     "Android 5.0",
     "Android 5.0.1",
     "Android 5.0.2",
     "Android 5.1",
     "Android 5.1.1",
     "Android 6.0",
     "Android 6.0.1",
     "Android 7.0",
     "Android 7.1",
     "Android 7.1.1",
     "Android 7.1.2",
     "Android 8.0",
     "Android 8.1",
     "Android 9",
     "Android 10",
     "Android 11"]
  | _ => []

def OS_PLATFORM_KEYS : List String := ["win", "mac", "linux", "android"]

def OS_CPU : String → List String
  | "win" => ["", "Win64; x64", "WOW64"]
  | "linux" => ["i686", "x86_64", "i686 on x86_64"]
  | "mac" => [""]
  | "android" => ["armv7l", "armv8l"]
  | _ => []

def OS_NAVIGATOR : String → List String
  | "win" => ["chrome", "firefox", "ie"]
  | "mac" => ["firefox", "chrome"]
  | "linux" => ["chrome", "firefox"]
  | "android" => ["firefox", "chrome"]
  | _ => []

def OS_NAVIGATOR_KEYS : List String := ["win", "mac", "linux", "android"]

def NAVIGATOR_OS : String → List String
  | "chrome" => ["win", "linux", "mac", "android"]
  | "firefox" => ["win", "linux", "mac", "android"]
  | "ie" => ["win"]
  | _ => []

def NAVIGATOR_OS_KEYS : List String := ["chrome", "firefox", "ie"]

def IE_VERSION : List (Nat × String × String) :=
  [(8, "MSIE 8.0", "4.0"),
   (9, "MSIE 9.0", "5.0"),
   (10, "MSIE 10.0", "6.0"),
   (11, "MSIE 11.0", "7.0")]

def FIREFOX_VERSION : List (String × Datetime) := [
  ("0.9", datetime 2004 6 28),
  ("0.9.3", datetime 2004 8 4),
  ("0.10", datetime 2004 9 14),
  ("0.10.1", datetime 2004 9 14),
  ("1.0.1", datetime 2005 2 24),
  ("1.0.2", datetime 2005 3 23),
  ("1.0.3", datetime 2005 4 15),
  ("1.0.4", datetime 2005 5 11),
  ("1.0.5", datetime 2005 7 12),
  ("1.0.6", datetime 2005 7 19),
  ("1.0.7", datetime 2005 9 20),
  ("1.0.8", datetime 2006 4 13),
  ("1.5.0.1", datetime 2006 2 1),
  ("1.5.0.2", datetime 2006 4 13),
  ("1.5.0.3", datetime 2006 5 2),
  ("1.5.0.4", datetime 2006 6 1),
  ("1.5.0.5", datetime 2006 7 27),
  ("1.5.0.6", datetime 2006 8 2),
  ("1.5.0.7", datetime 2006 9 14),
  ("1.5.0.8", datetime 2006 11 7),
  ("1.5.0.9", datetime 2007 3 20),
  ("2.0.0.1", datetime 2006 12 19),
  ("2.0.0.2", datetime 2007 2 23),
  ("2.0.0.3", datetime 2007 3 20),
  ("2.0.0.4", datetime 2007 5 30),
  ("2.0.0.5", datetime 2007 7 17),
  ("2.0.0.6", datetime 2007 7 30),
  ("2.0.0.7", datetime 2007 9 18),
  ("2.0.0.8", datetime 2007 10 18),
  ("2.0.0.9", datetime 2007 11 1),
  ("2.0.0.11", datetime 2007 11 30),
  ("2.0.0.12", datetime 2008 2 7),
  ("2.0.0.13", datetime 2008 3 25),
  ("2.0.0.14", datetime 2008 4 16),
  ("2.0.0.15", datetime 2008 7 1),
  ("2.0.0.16", datetime 2008 7 15),
  ("2.0.0.17", datetime 2008 9 23),
  ("2.0.0.18", datetime 2008 11 12),
  ("2.0.0.19", datetime 2008 12 16),
  ("3.0.1", datetime 2008 7 16),
  ("3.0.2", datetime 2008 9 23),
  ("3.0.3", datetime 2008 9 26),
  ("3.0.4", datetime 2008 11 12),
  ("3.0.5", datetime 2008 12 16),
  ("3.0.6", datetime 2009 2 3),
  ("3.0.7", datetime 2009 3 4),
  ("3.0.8", datetime 2009 3 27),
  ("3.0.9", datetime 2009 4 21),
  ("3.0.10", datetime 2009 4 27),
  ("3.0.11", datetime 2009 6 11),
  ("3.0.12", datetime 2009 7 21),
  ("3.0.13", datetime 2009 8 3),
  ("3.0.14", datetime 2009 9 9),
  ("3.0.15", datetime 2009 10 27),
  ("3.0.16", datetime 2009 12 15),
  ("3.0.17", datetime 2010 1 5),
  ("3.0.18", datetime 2010 2 17),
  ("3.0.19", datetime 2010 3 30),
  ("3.5.1", datetime 2009 7 16),
  ("3.5.2", datetime 2009 8 3),
  ("3.5.3", datetime 2009 9 9),
  ("3.5.4", datetime 2009 10 27),
  ("3.5.5", datetime 2009 11 5),
  ("3.5.6", datetime 2009 12 15),
  ("3.5.7", datetime 2010 1 5),
  ("3.5.8", datetime 2010 2 17),
  ("3.5.9", datetime 2010 3 30),
  ("3.5.10", datetime 2010 6 22),
  ("3.5.11", datetime 2010 7 20),
  ("3.5.12", datetime 2010 9 7),
  ("3.5.13", datetime 2010 9 15),
  ("3.5.14", datetime 2010 10 19),
  ("3.5.15", datetime 2010 10 27),
  ("3.5.16", datetime 2010 12 9),
  ("3.5.17", datetime 2011 3 1),
  ("3.5.18", datetime 2011 3 22),
  ("3.6.2", datetime 2010 3 22),
  ("3.6.3", datetime 2010 4 1),
  ("3.6.4", datetime 2010 6 22),
  ("3.6.6", datetime 2010 6 26),
  ("3.6.7", datetime 2010 7 20),
  ("3.6.8", datetime 2010 7 23),
  ("3.6.9", datetime 2010 9 7),
  ("3.6.10", datetime 2010 9 15),
  ("3.6.11", datetime 2010 10 19),
  ("3.6.12", datetime 2010 10 27),
  ("3.6.13", datetime 2010 12 9),
  ("3.6.14", datetime 2011 3 1),
  ("3.6.15", datetime 2011 3 4),
  ("3.6.16", datetime 2011 3 22),
  ("3.6.17", datetime 2011 4 28),
  ("3.6.18", datetime 2011 6 21),
  ("3.6.19", datetime 2011 7 11),
  ("3.6.20", datetime 2011 8 16),
  ("3.6.21", datetime 2011 8 30),
  ("3.6.22", datetime 2011 9 6),
  ("3.6.23", datetime 2011 9 27),
  ("3.6.24", datetime 2011 11 8),
  ("3.6.25", datetime 2011 12 20),
  ("3.6.26", datetime 2012 1 31),
  ("3.6.27", datetime 2012 2 17),
  ("4.0", datetime 2011 3 22),
  ("4.0.1", datetime 2011 4 28),
  ("5.0", datetime 2011 6 21),
  ("7.0", datetime 2011 9 27),
  ("8.0", datetime 2011 11 8),
  ("9.0", datetime 2011 12 20),
  ("5.0.1", datetime 2011 7 11),
  ("6.0", datetime 2011 8 16),
  ("6.0.1", datetime 2011 8 30),
  ("6.0.2", datetime 2011 9 6),
  ("7.0.1", datetime 2011 9 29),
  ("8.0.1", datetime 2011 11 21),
  ("9.0.1", datetime 2011 12 21),
  ("10.0", datetime 2012 1 31),
  ("11.0", datetime 2012 3 13),
  ("14.0.1", datetime 2012 7 17),
  ("10.0.1", datetime 2012 2 10),
  ("10.0.2", datetime 2012 2 16),
  ("10.0.3", datetime 2012 3 13),
  ("10.0.4", datetime 2012 4 24),
  ("10.0.5", datetime 2012 6 5),
  ("10.0.6", datetime 2012 7 17),
  ("10.0.7", datetime 2012 8 28),
  ("10.0.8", datetime 2012 10 9),
  ("10.0.9", datetime 2012 10 12),
  ("10.0.10", datetime 2012 10 26),
  ("10.0.11", datetime 2012 11 20),
  ("12.0", datetime 2012 4 24),
  ("13.0", datetime 2012 6 5),
  ("13.0.1", datetime 2012 6 15),
  ("15.0", datetime 2012 8 28),
  ("15.0.1", datetime 2012 9 6),
  ("16.0", datetime 2012 10 9),
  ("16.0.1", datetime 2012 10 11),
  ("16.0.2", datetime 2012 10 26),
  ("17.0", datetime 2012 11 20),
  ("17.0.1", datetime 2012 11 30),
  ("17.0.2", datetime 2013 1 8),
  ("17.0.3", datetime 2013 2 19),
  ("17.0.4", datetime 2013 3 7),
  ("17.0.5", datetime 2013 4 2),
  ("17.0.6", datetime 2013 5 14),
  ("17.0.7", datetime 2013 6 25),
  ("17.0.8", datetime 2013 8 6),
  ("17.0.9", datetime 2013 9 17),
  ("17.0.10", datetime 2013 10 29),
  ("17.0.11", datetime 2013 11 15),
  ("18.0", datetime 2013 1 6),
  ("18.0.1", datetime 2013 1 18),
  ("18.0.2", datetime 2013 2 5),
  ("19.0", datetime 2013 2 19),
  ("19.0.1", datetime 2013 2 27),
  ("19.0.2", datetime 2013 3 7),
  ("20.0", datetime 2013 4 2),
  ("20.0.1", datetime 2013 4 11),
  ("21.0", datetime 2013 5 14),
  ("22.0", datetime 2013 6 25),
  ("23.0", datetime 2013 8 6),
  ("23.0.1", datetime 2013 8 17),
  ("24.0", datetime 2013 9 17),
  ("24.1.0", datetime 2013 10 29),
  ("24.1.1", datetime 2013 11 15),
  ("24.2.0", datetime 2013 12 10),
  ("24.3.0", datetime 2013 12 10),
  ("24.4.0", datetime 2013 12 10),
  ("24.5.0", datetime 2013 12 10),
  ("24.6.0", datetime 2013 12 10),
  ("24.7.0", datetime 2013 12 10),
  ("24.8.0", datetime 2013 12 10),
  ("24.8.1", datetime 2013 12 10),
  ("25.0", datetime 2013 10 29),
  ("25.0.1", datetime 2013 11 15),
  ("26.0", datetime 2013 12 10),
  ("27.0", datetime 2014 2 4),
  ("27.0.1", datetime 2014 2 14),
  ("28.0", datetime 2014 3 18),
  ("29.0", datetime 2014 4 29),
  ("29.0.1", datetime 2014 5 9),
  ("30.0", datetime 2014 6 10),
  ("31.0", datetime 2014 7 22),
  ("31.1.0", datetime 2014 9 2),
  ("31.1.1", datetime 2014 9 2),
  ("31.2.0", datetime 2014 10 14),
  ("31.3.0", datetime 2014 12 1),
  ("31.4.0", datetime 2015 1 13),
  ("31.5.0", datetime 2015 2 24),
  ("31.5.3", datetime 2015 3 21),
  ("31.6.0", datetime 2015 3 31),
  ("31.7.0", datetime 2015 5 12),
  ("31.8.0", datetime 2015 7 2),
  ("32.0", datetime 2014 9 2),
  ("32.0.1", datetime 2014 9 12),
  ("32.0.2", datetime 2014 9 18),
  ("32.0.3", datetime 2014 9 24),
  ("33.0", datetime 2014 10 14),
  ("33.0.1", datetime 2014 10 24),
  ("33.0.2", datetime 2014 10 28),
  ("33.0.3", datetime 2014 11 7),
  ("33.1", datetime 2014 11 10),
  ("33.1.1", datetime 2014 11 14),
  ("34.0", datetime 2014 12 1),
  ("34.0.5", datetime 2014 12 1),
  ("35.0", datetime 2015 1 13),
  ("35.0.1", datetime 2015 1 27),
  ("36.0", datetime 2015 2 24),
  ("36.0.1", datetime 2015 3 6),
  ("36.0.2", datetime 2015 3 16),
  ("36.0.3", datetime 2015 3 20),
  ("36.0.4", datetime 2015 3 21),
  ("37.0", datetime 2015 3 31),
  ("37.0.1", datetime 2015 4 3),
  ("37.0.2", datetime 2015 4 20),
  ("38.0", datetime 2015 5 12),
  ("38.0.1", datetime 2015 5 14),
  ("38.1.0", datetime 2015 7 2),
  ("38.1.1", datetime 2015 8 6),
  ("38.2.0", datetime 2015 8 11),
  ("38.2.1", datetime 2015 8 27),
  ("38.3.0", datetime 2015 9 22),
  ("38.4.0", datetime 2015 11 3),
  ("38.5.0", datetime 2015 12 15),
  ("38.5.1", datetime 2015 12 21),
  ("38.5.2", datetime 2015 12 22),
  ("38.6.0", datetime 2016 1 26),
  ("38.6.1", datetime 2016 2 11),
  ("38.7.0", datetime 2016 3 8),
  ("38.7.1", datetime 2016 3 16),
  ("38.8.0", datetime 2016 4 26),
  ("38.0.5", datetime 2015 6 2),
  ("39.0", datetime 2015 7 2),
  ("39.0.3", datetime 2015 8 6),
  ("40.0", datetime 2015 8 11),
  ("40.0.2", datetime 2015 8 13),
  ("40.0.3", datetime 2015 8 27),
  ("41.0", datetime 2015 9 22),
  ("41.0.1", datetime 2015 9 30),
  ("41.0.2", datetime 2015 10 15),
  ("42.0", datetime 2015 11 3),
  ("43.0", datetime 2015 12 15),
  ("43.0.1", datetime 2015 12 18),
  ("43.0.2", datetime 2015 12 22),
  ("43.0.3", datetime 2015 12 28),
  ("43.0.4", datetime 2016 1 6),
  ("44.0", datetime 2016 1 26),
  ("44.0.1", datetime 2016 2 8),
  ("44.0.2", datetime 2016 2 11),
  ("45.0", datetime 2016 3 8),
  ("45.0.1", datetime 2016 3 16),
  ("45.0.2", datetime 2016 4 12),
  ("45.1.0", datetime 2016 4 26),
  ("45.1.1", datetime 2016 5 3),
  ("45.2.0", datetime 2016 6 7),
  ("45.3.0", datetime 2016 8 2),
  ("45.4.0", datetime 2016 9 20),
  ("45.5.0", datetime 2016 11 15),
  ("45.5.1", datetime 2016 11 30),
  ("45.6.0", datetime 2016 12 13),
  ("45.7.0", datetime 2017 1 24),
  ("45.8.0", datetime 2017 3 7),
  ("45.9.0", datetime 2017 4 19),
  ("46.0", datetime 2016 4 26),
  ("46.0.1", datetime 2016 5 3),
  ("47.0", datetime 2016 6 7),
  ("47.0.1", datetime 2016 6 28),
  ("48.0", datetime 2016 8 2),
  ("48.0.1", datetime 2016 8 18),
  ("48.0.2", datetime 2016 8 24),
  ("49.0", datetime 2016 8 2),
  ("49.0.1", datetime 2016 9 23),
  ("50.0", datetime 2016 11 15),
  ("50.0.1", datetime 2016 11 28),
  ("50.0.2", datetime 2016 11 30),
  ("51.0", datetime 2017 1 24),
  ("51.0.1", datetime 2017 1 26),
  ("52.0", datetime 2017 3 7),
  ("52.1.0", datetime 2017 4 19),
  ("52.1.1", datetime 2017 5 19),
  ("52.1.2", datetime 2017 5 19),
  ("52.2.0", datetime 2017 6 13),
  ("52.2.1", datetime 2017 6 29),
  ("52.3.0", datetime 2017 8 8),
  ("52.4.0", datetime 2017 9 28),
  ("52.4.1", datetime 2017 10 9),
  ("52.5.0", datetime 2017 12 7),
  ("52.5.3", datetime 2017 12 28),
  ("52.6.0", datetime 2018 1 23),
  ("52.7.0", datetime 2018 3 13),
  ("52.7.1", datetime 2018 3 14),
  ("52.7.2", datetime 2018 3 16),
  ("52.7.3", datetime 2018 3 26),
  ("52.7.4", datetime 2018 4 30),
  ("52.8.0", datetime 2018 5 9),
  ("52.8.1", datetime 2018 6 6),
  ("52.9.0", datetime 2018 6 26),
  ("53.0", datetime 2017 4 19),
  ("53.0.2", datetime 2017 5 5),
  ("53.0.3", datetime 2017 5 19),
  ("54.0", datetime 2017 6 13),
  ("54.0.1", datetime 2017 6 29),
  ("55.0", datetime 2017 8 8),
  ("55.0.1", datetime 2017 8 10),
  ("55.0.2", datetime 2017 8 16),
  ("55.0.3", datetime 2017 8 25),
  ("56.0", datetime 2017 9 28),
  ("56.0.1", datetime 2017 10 9),
  ("56.0.2", datetime 2017 10 26),
  ("57.0", datetime 2017 11 14),
  ("57.0.1", datetime 2017 11 29),
  ("57.0.2", datetime 2017 12 7),
  ("57.0.3", datetime 2017 12 28),
  ("57.0.4", datetime 2018 1 4),
  ("58.0", datetime 2018 1 23),
  ("58.0.1", datetime 2018 1 29),
  ("58.0.2", datetime 2018 2 7),
  ("59.0", datetime 2018 3 13),
  ("59.0.1", datetime 2018 3 16),
  ("59.0.2", datetime 2018 3 26),
  ("59.0.3", datetime 2018 4 30),
  ("60.0", datetime 2018 5 9),
  ("60.0.1", datetime 2018 5 16),
  ("60.0.2", datetime 2018 6 6),
  ("60.1.0", datetime 2018 6 26),
  ("60.2.0", datetime 2018 9 5),
  ("60.2.1", datetime 2018 9 21),
  ("60.2.2", datetime 2018 10 2),
  ("60.3.0", datetime 2018 10 23),
  ("60.4.0", datetime 2018 12 11),
  ("60.5.0", datetime 2019 1 29),
  ("60.5.1", datetime 2019 2 12),
  ("60.5.2", datetime 2019 2 22),
  ("60.6.0", datetime 2019 3 19),
  ("60.6.1", datetime 2019 3 22),
  ("60.6.2", datetime 2019 5 5),
  ("60.6.3", datetime 2019 5 8),
  ("60.7.0", datetime 2019 5 21),
  ("60.7.1", datetime 2019 6 18),
  ("60.7.2", datetime 2019 6 20),
  ("60.8.0", datetime 2019 7 9),
  ("60.9.0", datetime 2019 9 3),
  ("61.0", datetime 2018 6 26),
  ("61.0.1", datetime 2018 7 5),
  ("61.0.2", datetime 2018 8 8),
  ("62.0", datetime 2018 9 5),
  ("62.0.1", datetime 2018 9 7),
  ("62.0.2", datetime 2018 9 21),
  ("62.0.3", datetime 2018 10 2),
  ("63.0", datetime 2018 10 23),
  ("63.0.1", datetime 2018 10 31),
  ("63.0.2", datetime 2018 11 7),
  ("63.0.3", datetime 2018 11 15),
  ("64.0", datetime 2018 12 11),
  ("64.0.1", datetime 2018 12 14),
  ("64.0.2", datetime 2019 1 9),
  ("65.0", datetime 2019 1 29),
  ("65.0.1", datetime 2019 2 12),
  ("65.0.2", datetime 2019 2 28),
  ("66.0", datetime 2019 3 19),
  ("66.0.1", datetime 2019 3 22),
  ("66.0.2", datetime 2019 3 27),
  ("66.0.3", datetime 2019 4 10),
  ("66.0.4", datetime 2019 5 5),
  ("66.0.5", datetime 2019 5 7),
  ("67.0", datetime 2019 5 21),
  ("67.0.1", datetime 2019 6 4),
  ("67.0.2", datetime 2019 6 11),
  ("67.0.3", datetime 2019 6 18),
  ("67.0.4", datetime 2019 6 20),
  ("68.0", datetime 2019 7 13),
  ("68.0.1", datetime 2019 7 18),
  ("68.0.2", datetime 2019 8 14),
  ("68.1.0", datetime 2019 9 3),
  ("68.2.0", datetime 2019 10 22),
  ("68.3.0", datetime 2019 12 3),
  ("68.4.0", datetime 2020 1 7),
  ("68.4.1", datetime 2020 1 8),
  ("68.4.2", datetime 2020 1 20),
  ("68.5.0", datetime 2020 2 11),
  ("68.6.0", datetime 2020 3 10),
  ("68.6.1", datetime 2020 4 3),
  ("68.7.0", datetime 2020 4 7),
  ("68.8.0", datetime 2020 5 5),
  ("68.9.0", datetime 2020 6 2),
  ("68.10.0", datetime 2020 6 30),
  ("68.11.0", datetime 2020 7 28),
  ("68.12.0", datetime 2020 8 25),
  ("69.0", datetime 2019 9 3),
  ("69.0.1", datetime 2019 9 18),
  ("69.0.2", datetime 2019 10 3),
  ("69.0.3", datetime 2019 10 10),
  ("70.0", datetime 2019 10 22),
  ("70.0.1", datetime 2019 10 31),
  ("71.0", datetime 2019 12 3),
  ("72.0", datetime 2020 1 7),
  ("72.0.1", datetime 2020 1 8),
  ("72.0.2", datetime 2020 1 20),
  ("73.0", datetime 2020 2 11),
  ("73.0.1", datetime 2020 2 18),
  ("74.0", datetime 2020 3 10),
  ("74.0.1", datetime 2020 4 3),
  ("75.0", datetime 2020 4 7),
  ("76.0", datetime 2020 5 5),
  ("76.0.1", datetime 2020 5 8),
  ("77.0", datetime 2020 6 2),
  ("77.0.1", datetime 2020 6 3),
  ("78.0", datetime 2020 6 30),
  ("78.0.1", datetime 2020 7 1),
  ("78.0.2", datetime 2020 7 9),
  ("78.1.0", datetime 2020 7 28),
  ("78.2.0", datetime 2020 8 25),
  ("78.3.0", datetime 2020 9 22),
  ("78.3.1", datetime 2020 10 1),
  ("78.4.0", datetime 2020 10 20),
  ("78.4.1", datetime 2020 11 10),
  ("78.5.0", datetime 2020 11 17),
  ("78.6.0", datetime 2020 12 15),
  ("78.6.1", datetime 2021 1 6),
  ("79.0", datetime 2020 7 28),
  ("80.0", datetime 2020 8 25),
  ("80.0.1", datetime 2020 9 1),
  ("81.0", datetime 2020 9 22),
  ("81.0.1", datetime 2020 10 1),
  ("81.0.2", datetime 2020 10 13),
  ("82.0", datetime 2020 10 20),
  ("82.0.1", datetime 2020 10 27),
  ("82.0.2", datetime 2020 10 28),
  ("82.0.3", datetime 2020 11 10),
  ("83.0", datetime 2020 11 17),
  ("84.0", datetime 2020 12 15),
  ("84.0.1", datetime 2020 12 22),
  ("84.0.2", datetime 2021 1 6)]

def CHROME_BUILD : List (Nat × Nat × Nat) := [
  (49, 2623, 2623),
  (50, 2661, 2661),
  (51, 2704, 2704),
  (52, 2743, 2743),
  (53, 2785, 2785),
  (54, 2840, 2840),
  (55, 2883, 2883),
  (56, 2924, 2924),
  (57, 2987, 2987),
  (58, 3029, 3029),
  (59, 3071, 3071),
  (60, 3112, 3112),
  (61, 3163, 3163),
  (62, 3202, 3202),
  (63, 3239, 3239),
  (64, 3251, 3282),
  (65, 3325, 3325),
  (66, 3359, 3359),
  (67, 3396, 3396),
  (68, 3440, 3440),
  (69, 3497, 3497),
  (70, 3538, 3538),
  (71, 3578, 3578),
  (72, 3626, 3626),
  (73, 3683, 3683),
  (74, 3729, 3729),
  (75, 3770, 3770),
  (76, 3809, 3809),
  (77, 3865, 3865),
  (78, 3904, 3904),
  (79, 3945, 3945),
  (80, 3987, 3987),
  (81, 4044, 4044),
  (83, 4103, 4103),
  (84, 4147, 4147),
  (85, 4183, 4183),
  (86, 4240, 4240),
  (87, 4280, 4280)]

/-- Zero-padded two-digit decimal rendering (`%m`, `%d`, `%H`, `%M`, `%S`). -/
def pad2 (n : Nat) : List Char := [Nat.digitChar (n / 10 % 10), Nat.digitChar (n % 10)]

/-- `%Y`: four digits for years below 10000 (all years of this module),
full decimal expansion otherwise. -/
def yearChars (y : Nat) : List Char :=
  if y < 10000 then
    [Nat.digitChar (y / 1000 % 10), Nat.digitChar (y / 100 % 10),
     Nat.digitChar (y / 10 % 10), Nat.digitChar (y % 10)]
  else Nat.toDigits 10 y

/-- `strftime("%Y%m%d%H%M%S")` on a time given in seconds. -/
def strftimeYmdHMS (t : Nat) : String :=
  let c := civilFromDays (t / 86400)
  let secs := t % 86400
  ⟨yearChars c.year ++ pad2 c.month ++ pad2 c.day ++
    pad2 (secs / 3600) ++ pad2 (secs % 3600 / 60) ++ pad2 (secs % 60)⟩

/-- `choice(FIREFOX_VERSION)` inside `get_firefox_build`. -/
def firefoxEntry (rng : Rng) : String × Datetime :=
  pychoice FIREFOX_VERSION rng.ffVersion ("", datetime 1 1 1)

/-- `date_to` of `get_firefox_build`: release date of the entry following the
first occurrence of the chosen record in the table, in seconds; falls back to
`date_from + timedelta(days=1)` when the chosen record is the last entry. -/
def firefoxDateToSecs (rng : Rng) : Nat :=
  match FIREFOX_VERSION.get? (FIREFOX_VERSION.indexOf (firefoxEntry rng) + 1) with
  | some e => datetimeSecs e.2
  | none => datetimeSecs (firefoxEntry rng).2 + 86400

/-- `max(sec_range, 100000)` where `sec_range = (date_to - date_from).total_seconds() - 1`. -/
def firefoxBound (rng : Rng) : Int :=
  max ((firefoxDateToSecs rng : Int) - (datetimeSecs (firefoxEntry rng).2 : Int) - 1) 100000

/-- `build_rnd_time = date_from + timedelta(seconds=randint(0, max(sec_range, 100000)))`,
in seconds. -/
def firefoxBuildTime (rng : Rng) : Nat :=
  datetimeSecs (firefoxEntry rng).2 + rng.ffOffset % ((firefoxBound rng).toNat + 1)

/-- `get_firefox_build()`: the chosen version string and the build id, which
is `build_rnd_time.strftime("%Y%m%d%H%M%S")`. -/
def get_firefox_build (rng : Rng) : String × String :=
  ((firefoxEntry rng).1, strftimeYmdHMS (firefoxBuildTime rng))

/-- `get_chrome_build()`: `"%d.0.%d.%d" % (major, randint(min, max), randint(0, 120))`. -/
def get_chrome_build (rng : Rng) : String :=
  let build := pychoice CHROME_BUILD rng.chromeBuildIdx (0, 0, 0)
  ⟨Nat.toDigits 10 build.1⟩ ++ ".0." ++
    ⟨Nat.toDigits 10 (pyrandint build.2.1 build.2.2 rng.chromeBuildNum)⟩ ++ "." ++
    ⟨Nat.toDigits 10 (pyrandint 0 120 rng.chromePatch)⟩

/-- `get_ie_build()`: a random `(numeric ver, string ver, trident ver)` record. -/
def get_ie_build (rng : Rng) : Nat × String × String :=
  pychoice IE_VERSION rng.ieIdx (0, "", "")

def MACOSX_CHROME_BUILD_RANGE : String → Option (Nat × Nat)
  | "10.8" => some (0, 8)
  | "10.9" => some (0, 5)
  | "10.10" => some (0, 5)
  | "10.11" => some (0, 6)
  | "10.12" => some (0, 6)
  | "10.13" => some (0, 6)
  | "10.14" => some (0, 6)
  | "10.15" => some (0, 7)
  | "11.0" => some (0, 2)
  | _ => none

/-- `fix_chrome_mac_platform`: rewrite `"... OS X 10.11"` into
`"... OS X 10_11_<minor>"` with a random minor build from the range table.
`none` models the `KeyError`/`IndexError` that an unknown release would raise. -/
def fix_chrome_mac_platform (platform : String) (rng : Rng) : Option String :=
  match pysplitOnceTail platform "OS X " with
  | none => none
  | some ver =>
    match MACOSX_CHROME_BUILD_RANGE ver with
    | none => none
    | some (lo, hi) =>
      let build := lo + rng.macChromeMinor % (hi - lo)
      let mac_ver : String :=
        ⟨ver.data.map fun c => if c = '.' then '_' else c⟩ ++ "_" ++ ⟨Nat.toDigits 10 build⟩
      some ("Macintosh; Intel Mac OS X " ++ mac_ver)

/-- Result of `build_system_components`. -/
structure SystemComponents where
  platform_version : String
  platform : String
  ua_platform : String
  oscpu : String
  deriving DecidableEq, Repr

/-- `build_system_components(device_type, os_id, navigator_id)`.

Modelled from the spec where the repository's `device.py` is concerned: the
catalogs `SMARTPHONE_DEV_IDS` and `TABLET_DEV_IDS` are not under `src/`; the
spec treats them as opaque fixed sets of strings, so they are passed here as
parameters.  `none` models the android `assert` failures and the unbound
`res` of an unknown `os_id`. -/
def build_system_components (smartphone_dev_ids tablet_dev_ids : List String)
    (device_type os_id navigator_id : String) (rng : Rng) : Option SystemComponents :=
  if os_id = "win" then
    let platform_version := pychoice (OS_PLATFORM "win") rng.sysPlatform ""
    let cpu := pychoice (OS_CPU "win") rng.sysCpu ""
    let platform := if cpu ≠ "" then platform_version ++ "; " ++ cpu else platform_version
    some ⟨platform_version, platform, platform, platform⟩
  else if os_id = "linux" then
    let cpu := pychoice (OS_CPU "linux") rng.sysCpu ""
    let platform_version := pychoice (OS_PLATFORM "linux") rng.sysPlatform ""
    let platform := platform_version ++ " " ++ cpu
    some ⟨platform_version, platform, platform, "Linux " ++ cpu⟩
  else if os_id = "mac" then
    let _cpu := pychoice (OS_CPU "mac") rng.sysCpu ""
    let platform_version := pychoice (OS_PLATFORM "mac") rng.sysPlatform ""
    match (if navigator_id = "chrome" then fix_chrome_mac_platform platform_version rng
           else some platform_version) with
    | none => none
    | some platform =>
      some ⟨platform_version, "MacIntel", platform,
            "Intel Mac OS X " ++ lastSpaceToken platform⟩
  else if os_id = "android" then
    if (navigator_id = "firefox" ∨ navigator_id = "chrome") ∧
        (device_type = "smartphone" ∨ device_type = "tablet") then
      let platform_version := pychoice (OS_PLATFORM "android") rng.sysPlatform ""
      let ua_platform : Option String :=
        if navigator_id = "firefox" then
          if device_type = "smartphone" then some (platform_version ++ "; Mobile")
          else if device_type = "tablet" then some (platform_version ++ "; Tablet")
          else none
        else if navigator_id = "chrome" then
          some ("Linux; " ++ platform_version ++ "; " ++
                pychoice smartphone_dev_ids rng.androidDevice "")
        else none
      match ua_platform with
      | none => none
      | some ua_platform =>
        let oscpu := "Linux " ++ pychoice (OS_CPU "android") rng.sysCpu ""
        some ⟨platform_version, oscpu, ua_platform, oscpu⟩
    else none
  else none

/-- Result of `build_app_components` (dictionary keys that a given browser
does not set are `none`). -/
structure AppComponents where
  name : String
  product_sub : Option String
  vendor : String
  build_version : String
  build_id : Option String
  geckotrail : Option String
  trident_version : Option String
  deriving DecidableEq, Repr

/-- `build_app_components(os_id, navigator_id)`; `none` models the unbound
`res` of an unknown navigator. -/
def build_app_components (os_id navigator_id : String) (rng : Rng) : Option AppComponents :=
  if navigator_id = "firefox" then
    let b := get_firefox_build rng
    let geckotrail := if os_id = "win" ∨ os_id = "linux" ∨ os_id = "mac" then "20100101" else b.1
    some ⟨"Netscape", some "20100101", "", b.1, some b.2, some geckotrail, none⟩
  else if navigator_id = "chrome" then
    some ⟨"Netscape", some "20030107", "Google Inc.", get_chrome_build rng, none, none, none⟩
  else if navigator_id = "ie" then
    let v := get_ie_build rng
    let app_name := if 11 ≤ v.1 then "Netscape" else "Microsoft Internet Explorer"
    some ⟨app_name, none, "", v.2.1, none, none, some v.2.2⟩
  else none

/-- `choose_ua_template`: the key of the template to use. -/
def choose_ua_template (device_type navigator_id : String) (app : AppComponents) : String :=
  let tpl_name := navigator_id
  let tpl_name := if navigator_id = "ie" then
      (if app.build_version = "MSIE 11.0" then "ie_11" else "ie_less_11")
    else tpl_name
  let tpl_name := if navigator_id = "chrome" then
      (if device_type = "smartphone" then "chrome_smartphone"
       else if device_type = "tablet" then "chrome_tablet"
       else tpl_name)
    else tpl_name
  tpl_name

/-- `USER_AGENT_TEMPLATE[tpl_name].format(system=system, app=app)`: each
template of the source dictionary is rendered by direct substitution; `none`
models a `KeyError` for an unknown template key or a missing app field. -/
def format_user_agent_template (tpl_name : String) (system : SystemComponents)
    (app : AppComponents) : Option String :=
  if tpl_name = "firefox" then
    app.geckotrail.map fun gt =>
      "Mozilla/5.0 (" ++ system.ua_platform ++ "; rv:" ++ app.build_version ++
        ") Gecko/" ++ gt ++ " Firefox/" ++ app.build_version
  else if tpl_name = "chrome" then
    some ("Mozilla/5.0 (" ++ system.ua_platform ++
      ") AppleWebKit/537.36 (KHTML, like Gecko) Chrome/" ++ app.build_version ++
      " Safari/537.36")
  else if tpl_name = "chrome_smartphone" then
    some ("Mozilla/5.0 (" ++ system.ua_platform ++
      ") AppleWebKit/537.36 (KHTML, like Gecko) Chrome/" ++ app.build_version ++
      " Mobile Safari/537.36")
  else if tpl_name = "chrome_tablet" then
    some ("Mozilla/5.0 (" ++ system.ua_platform ++
      ") AppleWebKit/537.36 (KHTML, like Gecko) Chrome/" ++ app.build_version ++
      " Safari/537.36")
  else if tpl_name = "ie_less_11" then
    app.trident_version.map fun tv =>
      "Mozilla/5.0 (compatible; " ++ app.build_version ++ "; " ++ system.ua_platform ++
        "; Trident/" ++ tv ++ ")"
  else if tpl_name = "ie_11" then
    app.trident_version.map fun tv =>
      "Mozilla/5.0 (" ++ system.ua_platform ++ "; Trident/" ++ tv ++
        "; rv:11.0) like Gecko"
  else none

/-- `build_navigator_app_version`; `none` models the `assert` on the
`"Mozilla/"` prefix and the `KeyError`/unbound cases. -/
def build_navigator_app_version (os_id navigator_id platform_version user_agent : String) :
    Option String :=
  if navigator_id = "chrome" ∨ navigator_id = "ie" then
    if pystartswith user_agent "Mozilla/" then pysplitOnceTail user_agent "Mozilla/"
    else none
  else if navigator_id = "firefox" then
    if os_id = "android" then some ("5.0 (" ++ platform_version ++ ")")
    else if os_id = "win" then some "5.0 (Windows)"
    else if os_id = "mac" then some "5.0 (Macintosh)"
    else if os_id = "linux" then some "5.0 (X11)"
    else none
  else none

/-- The normalized choice list of `get_option_choices` before validation. -/
def filter_values (opt_value : Option OptValue) (default_value : List String) : List String :=
  match opt_value with
  | some (.str s) => [s]
  | some (.list xs) => xs
  | none => default_value

/-- The `InvalidOption` message for an invalid filter item:
`"Choices of option %s contains invalid item: %s"`. -/
def invalid_item_message (opt_name item : String) : String :=
  "Choices of option " ++ opt_name ++ " contains invalid item: " ++ item

/-- `get_option_choices(opt_name, opt_value, default_value, all_choices)`. -/
def get_option_choices (opt_name : String) (opt_value : Option OptValue)
    (default_value all_choices : List String) : Except GenError (List String) :=
  let choices := filter_values opt_value default_value
  let choices := if "all" ∈ choices then all_choices else choices
  match choices.find? (fun item => !(all_choices.contains item)) with
  | some item => .error (.invalidOption (invalid_item_message opt_name item))
  | none => .ok choices

/-- `itertools.product` on three lists, in the source's iteration order. -/
def tripleProduct (as bs cs : List String) : List (String × String × String) :=
  as.flatMap fun a => bs.flatMap fun b => cs.map fun c => (a, b, c)

/-- The compatibility predicate of the `pick_config_ids` loop. -/
def compatTriple (t : String × String × String) : Prop :=
  t.2.1 ∈ DEVICE_TYPE_OS t.1 ∧ t.2.2 ∈ DEVICE_TYPE_NAVIGATOR t.1 ∧
    t.2.2 ∈ OS_NAVIGATOR t.2.1

instance (t : String × String × String) : Decidable (compatTriple t) := by
  unfold compatTriple; infer_instance

/-- The per-call default for the `device_type` filter: `["desktop"]` when no
`os` filter was given, every device type otherwise. -/
def default_dev_types (os : Option OptValue) : List String :=
  match os with
  | none => ["desktop"]
  | some _ => DEVICE_TYPE_OS_KEYS

/-- `pick_config_ids(device_type, os, navigator)`. -/
def pick_config_ids (device_type os navigator : Option OptValue) (rng : Rng) :
    Except GenError (String × String × String) :=
  match get_option_choices "device_type" device_type (default_dev_types os) DEVICE_TYPE_OS_KEYS with
  | .error e => .error e
  | .ok dev_type_choices =>
  match get_option_choices "os" os OS_NAVIGATOR_KEYS OS_NAVIGATOR_KEYS with
  | .error e => .error e
  | .ok os_choices =>
  match get_option_choices "navigator" navigator NAVIGATOR_OS_KEYS NAVIGATOR_OS_KEYS with
  | .error e => .error e
  | .ok nav_choices =>
    let variants := (tripleProduct dev_type_choices os_choices nav_choices).filter
      fun t => decide (compatTriple t)
    if variants = [] then
      .error (.invalidOption "Options device_type, os and navigator conflicts with each other")
    else
      let c := pychoice variants rng.pickVariant ("", "", "")
      if c.2.1 ∈ OS_PLATFORM_KEYS ∧ c.2.2 ∈ NAVIGATOR_OS_KEYS ∧ c.1 ∈ DEVICE_TYPE_OS_KEYS then
        .ok c
      else .error .internalError

/-- The output record of `generate_navigator`. -/
structure NavigatorConfig where
  os_id : String
  navigator_id : String
  platform : String
  oscpu : String
  build_version : String
  build_id : Option String
  app_version : String
  app_name : String
  app_code_name : String
  product : String
  product_sub : Option String
  vendor : String
  vendor_sub : String
  user_agent : String
  deriving DecidableEq, Repr

/-- `generate_navigator(os, navigator, platform, device_type)`.  The
deprecated `platform` parameter is an alias for `os` (the warning it emits
has no effect on data flow). -/
def generate_navigator (smartphone_dev_ids tablet_dev_ids : List String)
    (os navigator platform device_type : Option OptValue) (rng : Rng) :
    Except GenError NavigatorConfig :=
  let os := match platform with
    | some p => some p
    | none => os
  match pick_config_ids device_type os navigator rng with
  | .error e => .error e
  | .ok (device_type, os_id, navigator_id) =>
  match build_system_components smartphone_dev_ids tablet_dev_ids device_type os_id
      navigator_id rng with
  | none => .error .internalError
  | some system =>
  match build_app_components os_id navigator_id rng with
  | none => .error .internalError
  | some app =>
  match format_user_agent_template (choose_ua_template device_type navigator_id app)
      system app with
  | none => .error .internalError
  | some user_agent =>
  match build_navigator_app_version os_id navigator_id system.platform_version user_agent with
  | none => .error .internalError
  | some app_version =>
    .ok { os_id := os_id, navigator_id := navigator_id,
          platform := system.platform, oscpu := system.oscpu,
          build_version := app.build_version, build_id := app.build_id,
          app_version := app_version, app_name := app.name,
          app_code_name := "Mozilla", product := "Gecko",
          product_sub := app.product_sub, vendor := app.vendor,
          vendor_sub := "", user_agent := user_agent }

/-- `generate_user_agent(...)`: the `user_agent` field of `generate_navigator(...)`. -/
def generate_user_agent (smartphone_dev_ids tablet_dev_ids : List String)
    (os navigator platform device_type : Option OptValue) (rng : Rng) :
    Except GenError String :=
  (generate_navigator smartphone_dev_ids tablet_dev_ids os navigator platform
    device_type rng).map fun config => config.user_agent

/-- The output record of `generate_navigator_js`. -/
structure NavigatorJs where
  appCodeName : String
  appName : String
  appVersion : String
  platform : String
  userAgent : String
  oscpu : String
  product : String
  productSub : Option String
  vendor : String
  vendorSub : String
  buildID : Option String
  deriving DecidableEq, Repr

/-- `generate_navigator_js(...)`: the same record re-keyed to the
`window.navigator` field names. -/
def generate_navigator_js (smartphone_dev_ids tablet_dev_ids : List String)
    (os navigator platform device_type : Option OptValue) (rng : Rng) :
    Except GenError NavigatorJs :=
  (generate_navigator smartphone_dev_ids tablet_dev_ids os navigator platform
    device_type rng).map fun config =>
    { appCodeName := config.app_code_name, appName := config.app_name,
      appVersion := config.app_version, platform := config.platform,
      userAgent := config.user_agent, oscpu := config.oscpu,
      product := config.product, productSub := config.product_sub,
      vendor := config.vendor, vendorSub := config.vendor_sub,
      buildID := config.build_id }

/-- Sample instantiations of the opaque device-model catalogs, for concrete
evaluations. -/
def sampleSmartphoneIds : List String := ["Nexus 5 Build/MRA58N"]

def sampleTabletIds : List String := ["KFTHWI Build/JDQ39"]

/-- The all-zero random draw, used for concrete evaluations. -/
def rngZero : Rng := ⟨0, 0, 0, 0, 0, 0, 0, 0, 0, 0, 0⟩

/-- An empty record, only used as the default of `Option.getD` when naming
the result of a concrete successful generation. -/
def emptyNavigatorConfig : NavigatorConfig :=
  ⟨"", "", "", "", "", none, "", "", "", "", none, "", "", ""⟩

/-- The `generate_navigator_js` counterpart of `emptyNavigatorConfig`. -/
def emptyNavigatorJs : NavigatorJs :=
  ⟨"", "", "", "", "", "", "", none, "", "", none⟩

/-- A draw choosing the third Firefox release record (`"0.10"`, whose
successor entry carries the same release date) and the maximal offset. -/
def rngC2 : Rng := ⟨0, 0, 0, 0, 0, 2, 100000, 0, 0, 0, 0⟩

theorem pychoice_mem {xs : List α} (h : xs ≠ []) (k : Nat) (d : α) :
    pychoice xs k d ∈ xs := by
  have hlt : k % xs.length < xs.length :=
    Nat.mod_lt _ (List.length_pos.mpr h)
  unfold pychoice
  rw [List.get?_eq_getElem? , List.getElem?_eq_getElem hlt]
  exact List.getElem_mem hlt

theorem pystartswith_iff {s pre : String} :
    pystartswith s pre = true ↔ pre.data <+: s.data := by
  unfold pystartswith
  exact List.isPrefixOf_iff_prefix

theorem string_data_append (s t : String) : (s ++ t).data = s.data ++ t.data := rfl

theorem pystartswith_append (a rest : String) (pre : String)
    (h : pre.data <+: a.data) : pystartswith (a ++ rest) pre = true := by
  rw [pystartswith_iff, string_data_append]
  exact h.trans (List.prefix_append a.data rest.data)

theorem findSubstrIdx_at_start {sep l : List Char} (h : sep.isPrefixOf l = true) :
    findSubstrIdx sep l = some 0 := by
  cases l with
  | nil => simp [findSubstrIdx, h]
  | cons c t => simp [findSubstrIdx, h]

theorem pysplitOnceTail_of_startswith {s pre : String} (h : pystartswith s pre = true) :
    pysplitOnceTail s pre = some ⟨s.data.drop pre.data.length⟩ := by
  unfold pysplitOnceTail
  rw [findSubstrIdx_at_start h]
  simp

theorem data_eq_append_of_startswith {s pre : String} (h : pystartswith s pre = true) :
    s.data = pre.data ++ s.data.drop pre.data.length := by
  obtain ⟨t, ht⟩ := pystartswith_iff.mp h
  rw [← ht, List.drop_left]

theorem findSubstrIdx_append_isSome (sub : List Char) :
    ∀ (a b : List Char), (findSubstrIdx sub (a ++ sub ++ b)).isSome = true := by
  intro a
  induction a with
  | nil =>
    intro b
    have h : sub.isPrefixOf (sub ++ b) = true :=
      List.isPrefixOf_iff_prefix.mpr (List.prefix_append sub b)
    simp only [List.nil_append]
    rw [findSubstrIdx_at_start h]
    rfl
  | cons c t ih =>
    intro b
    show (findSubstrIdx sub (c :: (t ++ sub ++ b))).isSome = true
    unfold findSubstrIdx
    split
    · rfl
    · simpa using ih b

theorem pycontains_of_parts (s sub mid post : String)
    (h : s.data = mid.data ++ sub.data ++ post.data) : pycontains s sub = true := by
  unfold pycontains
  rw [h]
  exact findSubstrIdx_append_isSome sub.data mid.data post.data

theorem get_option_choices_subset {name : String} {v : Option OptValue}
    {dflt all_choices l : List String}
    (h : get_option_choices name v dflt all_choices = .ok l) :
    ∀ x ∈ l, x ∈ all_choices := by
  simp only [get_option_choices] at h
  split at h
  · exact absurd h (by simp)
  next hfind =>
    cases h
    intro x hx
    have := List.find?_eq_none.mp hfind x hx
    simpa using this

theorem tripleProduct_mem {as bs cs : List String} {t : String × String × String} :
    t ∈ tripleProduct as bs cs ↔ t.1 ∈ as ∧ t.2.1 ∈ bs ∧ t.2.2 ∈ cs := by
  obtain ⟨d, o, n⟩ := t
  simp only [tripleProduct, List.mem_flatMap, List.mem_map, Prod.mk.injEq]
  constructor
  · rintro ⟨a, ha, b, hb, c, hc, rfl, rfl, rfl⟩
    exact ⟨ha, hb, hc⟩
  · rintro ⟨ha, hb, hc⟩
    exact ⟨d, ha, o, hb, n, hc, rfl, rfl, rfl⟩

/-- Everything true of a successful `pick_config_ids` result: the triple was
drawn from the compatibility-filtered product and passed the final asserts. -/
theorem pick_config_ids_ok_inv {dt os nav : Option OptValue} {rng : Rng}
    {c : String × String × String}
    (h : pick_config_ids dt os nav rng = .ok c) :
    compatTriple c ∧ c.1 ∈ DEVICE_TYPE_OS_KEYS ∧ c.2.1 ∈ OS_PLATFORM_KEYS ∧
      c.2.2 ∈ NAVIGATOR_OS_KEYS := by
  simp only [pick_config_ids] at h
  split at h
  · exact absurd h (by simp)
  split at h
  · exact absurd h (by simp)
  split at h
  · exact absurd h (by simp)
  split at h
  · exact absurd h (by simp)
  next hne =>
  split at h
  next hassert =>
    rw [Except.ok.injEq] at h
    have hmem := pychoice_mem hne rng.pickVariant ("", "", "")
    rw [h] at hmem hassert
    have hcomp : compatTriple c := of_decide_eq_true (List.mem_filter.mp hmem).2
    exact ⟨hcomp, hassert.2.2, hassert.1, hassert.2.1⟩
  · exact absurd h (by simp)

/-- `pick_config_ids` succeeds as soon as the three validated choice lists
admit one compatible triple, and the drawn triple is itself compatible and
drawn from the choice lists. -/
theorem pick_config_ids_ok_of_exists {dt os nav : Option OptValue} (rng : Rng)
    {ds osl ns : List String}
    (hd : get_option_choices "device_type" dt (default_dev_types os) DEVICE_TYPE_OS_KEYS
      = .ok ds)
    (ho : get_option_choices "os" os OS_NAVIGATOR_KEYS OS_NAVIGATOR_KEYS = .ok osl)
    (hn : get_option_choices "navigator" nav NAVIGATOR_OS_KEYS NAVIGATOR_OS_KEYS = .ok ns)
    (hex : ∃ d ∈ ds, ∃ o ∈ osl, ∃ n ∈ ns, compatTriple (d, o, n)) :
    ∃ c, pick_config_ids dt os nav rng = .ok c ∧ compatTriple c ∧
      c.1 ∈ ds ∧ c.2.1 ∈ osl ∧ c.2.2 ∈ ns := by
  obtain ⟨d, hdm, o, hom, n, hnm, hcomp⟩ := hex
  have hmem : (d, o, n) ∈ (tripleProduct ds osl ns).filter (fun t => decide (compatTriple t)) :=
    List.mem_filter.mpr ⟨tripleProduct_mem.mpr ⟨hdm, hom, hnm⟩, decide_eq_true hcomp⟩
  have hne : (tripleProduct ds osl ns).filter (fun t => decide (compatTriple t)) ≠ [] :=
    List.ne_nil_of_mem hmem
  have hcm := pychoice_mem hne rng.pickVariant ("", "", "")
  have hcompat : compatTriple (pychoice ((tripleProduct ds osl ns).filter
      (fun t => decide (compatTriple t))) rng.pickVariant ("", "", "")) :=
    of_decide_eq_true (List.mem_filter.mp hcm).2
  have hprod := tripleProduct_mem.mp (List.mem_filter.mp hcm).1
  have hassert : (pychoice ((tripleProduct ds osl ns).filter
        (fun t => decide (compatTriple t))) rng.pickVariant ("", "", "")).2.1 ∈ OS_PLATFORM_KEYS ∧
      (pychoice ((tripleProduct ds osl ns).filter
        (fun t => decide (compatTriple t))) rng.pickVariant ("", "", "")).2.2 ∈ NAVIGATOR_OS_KEYS ∧
      (pychoice ((tripleProduct ds osl ns).filter
        (fun t => decide (compatTriple t))) rng.pickVariant ("", "", "")).1 ∈ DEVICE_TYPE_OS_KEYS := by
    refine ⟨?_, ?_, ?_⟩
    · have hk : OS_NAVIGATOR_KEYS = OS_PLATFORM_KEYS := rfl
      exact hk ▸ get_option_choices_subset ho _ hprod.2.1
    · exact get_option_choices_subset hn _ hprod.2.2
    · exact get_option_choices_subset hd _ hprod.1
  refine ⟨pychoice ((tripleProduct ds osl ns).filter
    (fun t => decide (compatTriple t))) rng.pickVariant ("", "", ""), ?_, hcompat, hprod⟩
  simp only [pick_config_ids, hd, ho, hn]
  rw [if_neg hne, if_pos hassert]

theorem data_prefix_append {p : List Char} (a x : String) (h : p <+: a.data) :
    p <+: (a ++ x).data := by
  rw [string_data_append]
  exact h.trans (List.prefix_append a.data x.data)

/-- Every rendered template starts with `"Mozilla/5.0"` (hence with `"Mozilla/"`). -/
theorem format_user_agent_template_mozilla {tpl : String} {sys : SystemComponents}
    {app : AppComponents} {ua : String}
    (h : format_user_agent_template tpl sys app = some ua) :
    pystartswith ua "Mozilla/5.0" = true ∧ pystartswith ua "Mozilla/" = true := by
  constructor <;> rw [pystartswith_iff] <;>
  · simp only [format_user_agent_template] at h
    split_ifs at h <;>
      first
      | exact Option.noConfusion h
      | (rw [Option.map_eq_some'] at h
         obtain ⟨v, hv, hua⟩ := h
         rw [← hua]
         repeat apply data_prefix_append
         first
         | exact ⟨" (".data, rfl⟩
         | exact ⟨"5.0 (".data, rfl⟩
         | exact ⟨" (compatible; ".data, rfl⟩
         | exact ⟨"5.0 (compatible; ".data, rfl⟩)
      | (rw [Option.some.injEq] at h
         rw [← h]
         repeat apply data_prefix_append
         first
         | exact ⟨" (".data, rfl⟩
         | exact ⟨"5.0 (".data, rfl⟩
         | exact ⟨" (compatible; ".data, rfl⟩
         | exact ⟨"5.0 (compatible; ".data, rfl⟩)

/-- The mac platform strings of the catalog all survive `fix_chrome_mac_platform`. -/
theorem fix_chrome_mac_platform_isSome (rng : Rng) {p : String}
    (hp : p ∈ OS_PLATFORM "mac") : ∃ s, fix_chrome_mac_platform p rng = some s := by
  simp only [OS_PLATFORM, List.mem_cons, List.not_mem_nil, or_false] at hp
  rcases hp with rfl | rfl | rfl | rfl | rfl | rfl | rfl | rfl <;> exact ⟨_, rfl⟩

/-- `build_system_components` succeeds for every triple the constraint solver
can produce: a known os, and for android a firefox/chrome navigator on a
smartphone/tablet device. -/
theorem build_system_components_isSome (sIds tIds : List String) {d o n : String} (rng : Rng)
    (ho : o ∈ OS_PLATFORM_KEYS)
    (hand : o = "android" → (n = "firefox" ∨ n = "chrome") ∧
      (d = "smartphone" ∨ d = "tablet")) :
    (build_system_components sIds tIds d o n rng).isSome = true := by
  simp only [OS_PLATFORM_KEYS, List.mem_cons, List.not_mem_nil, or_false] at ho
  rcases ho with rfl | rfl | rfl | rfl
  · rfl
  · by_cases hn : n = "chrome"
    · subst hn
      have hp : pychoice (OS_PLATFORM "mac") rng.sysPlatform "" ∈ OS_PLATFORM "mac" :=
        pychoice_mem (by decide) rng.sysPlatform ""
      obtain ⟨s, hs⟩ := fix_chrome_mac_platform_isSome rng hp
      simp [build_system_components, hs]
    · simp [build_system_components, hn]
  · rfl
  · obtain ⟨hn, hd⟩ := hand rfl
    rcases hn with rfl | rfl <;> rcases hd with rfl | rfl <;> rfl

/-- For every navigator the solver can choose, `build_app_components`, the
template renderer and `build_navigator_app_version` all succeed, and the
rendered header starts with `"Mozilla/5.0"`. -/
theorem app_stages_ok (d o n : String) (sys : SystemComponents) (rng : Rng)
    (hn : n ∈ NAVIGATOR_OS_KEYS) (ho : o ∈ OS_PLATFORM_KEYS) :
    ∃ app ua av, build_app_components o n rng = some app ∧
      format_user_agent_template (choose_ua_template d n app) sys app = some ua ∧
      build_navigator_app_version o n sys.platform_version ua = some av ∧
      pystartswith ua "Mozilla/5.0" = true := by
  have hosplit : o = "win" ∨ o = "mac" ∨ o = "linux" ∨ o = "android" := by
    simpa [OS_PLATFORM_KEYS] using ho
  simp only [NAVIGATOR_OS_KEYS, List.mem_cons, List.not_mem_nil, or_false] at hn
  rcases hn with rfl | rfl | rfl
  · -- chrome
    have htpl : choose_ua_template d "chrome" ⟨"Netscape", some "20030107", "Google Inc.",
          get_chrome_build rng, none, none, none⟩ = "chrome_smartphone" ∨
        choose_ua_template d "chrome" ⟨"Netscape", some "20030107", "Google Inc.",
          get_chrome_build rng, none, none, none⟩ = "chrome_tablet" ∨
        choose_ua_template d "chrome" ⟨"Netscape", some "20030107", "Google Inc.",
          get_chrome_build rng, none, none, none⟩ = "chrome" := by
      by_cases h1 : d = "smartphone"
      · left; simp [choose_ua_template, h1]
      · by_cases h2 : d = "tablet"
        · right; left; simp [choose_ua_template, h1, h2]
        · right; right; simp [choose_ua_template, h1, h2]
    have hfmt : ∃ ua, format_user_agent_template (choose_ua_template d "chrome"
        ⟨"Netscape", some "20030107", "Google Inc.", get_chrome_build rng, none, none, none⟩)
        sys ⟨"Netscape", some "20030107", "Google Inc.", get_chrome_build rng,
          none, none, none⟩ = some ua := by
      rcases htpl with h | h | h <;> rw [h] <;> exact ⟨_, rfl⟩
    obtain ⟨ua, hua⟩ := hfmt
    obtain ⟨hm50, hm⟩ := format_user_agent_template_mozilla hua
    refine ⟨_, ua, ⟨ua.data.drop "Mozilla/".data.length⟩, rfl, hua, ?_, hm50⟩
    simp only [build_navigator_app_version, hm, true_or, or_true, if_true, eq_self_iff_true]
    exact pysplitOnceTail_of_startswith hm
  · -- firefox
    have happ : build_app_components o "firefox" rng =
        some ⟨"Netscape", some "20100101", "", (get_firefox_build rng).1,
          some (get_firefox_build rng).2,
          some (if o = "win" ∨ o = "linux" ∨ o = "mac" then "20100101"
            else (get_firefox_build rng).1), none⟩ := rfl
    have hfmt : format_user_agent_template (choose_ua_template d "firefox"
        ⟨"Netscape", some "20100101", "", (get_firefox_build rng).1,
          some (get_firefox_build rng).2,
          some (if o = "win" ∨ o = "linux" ∨ o = "mac" then "20100101"
            else (get_firefox_build rng).1), none⟩) sys
        ⟨"Netscape", some "20100101", "", (get_firefox_build rng).1,
          some (get_firefox_build rng).2,
          some (if o = "win" ∨ o = "linux" ∨ o = "mac" then "20100101"
            else (get_firefox_build rng).1), none⟩ = some
          ("Mozilla/5.0 (" ++ sys.ua_platform ++ "; rv:" ++ (get_firefox_build rng).1 ++
            ") Gecko/" ++ (if o = "win" ∨ o = "linux" ∨ o = "mac" then "20100101"
              else (get_firefox_build rng).1) ++ " Firefox/" ++ (get_firefox_build rng).1) := rfl
    obtain ⟨hm50, _⟩ := format_user_agent_template_mozilla hfmt
    rcases hosplit with rfl | rfl | rfl | rfl <;>
      exact ⟨_, _, _, happ, hfmt, rfl, hm50⟩
  · -- ie
    have happ : build_app_components o "ie" rng =
        some ⟨if 11 ≤ (get_ie_build rng).1 then "Netscape" else "Microsoft Internet Explorer",
          none, "", (get_ie_build rng).2.1, none, none, some (get_ie_build rng).2.2⟩ := rfl
    have hfmt : ∃ ua, format_user_agent_template (choose_ua_template d "ie"
        ⟨if 11 ≤ (get_ie_build rng).1 then "Netscape" else "Microsoft Internet Explorer",
          none, "", (get_ie_build rng).2.1, none, none, some (get_ie_build rng).2.2⟩) sys
        ⟨if 11 ≤ (get_ie_build rng).1 then "Netscape" else "Microsoft Internet Explorer",
          none, "", (get_ie_build rng).2.1, none, none, some (get_ie_build rng).2.2⟩ = some ua := by
      by_cases hv : ((get_ie_build rng).2.1 : String) = "MSIE 11.0"
      · have htpl : choose_ua_template d "ie"
            ⟨if 11 ≤ (get_ie_build rng).1 then "Netscape" else "Microsoft Internet Explorer",
              none, "", (get_ie_build rng).2.1, none, none, some (get_ie_build rng).2.2⟩
            = "ie_11" := by
          simp [choose_ua_template, hv]
        rw [htpl]
        exact ⟨_, rfl⟩
      · have htpl : choose_ua_template d "ie"
            ⟨if 11 ≤ (get_ie_build rng).1 then "Netscape" else "Microsoft Internet Explorer",
              none, "", (get_ie_build rng).2.1, none, none, some (get_ie_build rng).2.2⟩
            = "ie_less_11" := by
          simp [choose_ua_template, hv]
        rw [htpl]
        exact ⟨_, rfl⟩
    obtain ⟨ua, hua⟩ := hfmt
    obtain ⟨hm50, hm⟩ := format_user_agent_template_mozilla hua
    refine ⟨_, ua, ⟨ua.data.drop "Mozilla/".data.length⟩, happ, hua, ?_, hm50⟩
    simp only [build_navigator_app_version, hm, true_or, or_true, if_true, eq_self_iff_true]
    exact pysplitOnceTail_of_startswith hm

/-- The compatibility matrices force the android assertions: an android triple
uses firefox or chrome on a smartphone or tablet. -/
theorem compat_android {c : String × String × String} (hcomp : compatTriple c)
    (hd : c.1 ∈ DEVICE_TYPE_OS_KEYS) :
    c.2.1 = "android" →
      (c.2.2 = "firefox" ∨ c.2.2 = "chrome") ∧ (c.1 = "smartphone" ∨ c.1 = "tablet") := by
  intro ha
  obtain ⟨h1, h2, h3⟩ := hcomp
  rw [ha] at h3
  constructor
  · simpa [OS_NAVIGATOR] using h3
  · simp only [DEVICE_TYPE_OS_KEYS, List.mem_cons, List.not_mem_nil, or_false] at hd
    rcases hd with h | h | h
    · rw [h, ha] at h1
      exact absurd h1 (by decide)
    · exact Or.inl h
    · exact Or.inr h

/-- Whenever `pick_config_ids` succeeds, the whole `generate_navigator`
pipeline succeeds on its triple, carrying the triple's os and navigator ids. -/
theorem generate_navigator_ok_of_pick (sIds tIds : List String)
    {os nav dt : Option OptValue} {rng : Rng} {c : String × String × String}
    (hpick : pick_config_ids dt os nav rng = .ok c) :
    ∃ cfg, generate_navigator sIds tIds os nav none dt rng = .ok cfg ∧
      cfg.os_id = c.2.1 ∧ cfg.navigator_id = c.2.2 := by
  obtain ⟨hcomp, hd, ho, hn⟩ := pick_config_ids_ok_inv hpick
  have hand := compat_android hcomp hd
  obtain ⟨d0, o0, n0⟩ := c
  have hsys := build_system_components_isSome sIds tIds rng ho hand
  rw [Option.isSome_iff_exists] at hsys
  obtain ⟨sys, hsys⟩ := hsys
  obtain ⟨app, ua, av, happ, hfmt, hav, hm50⟩ := app_stages_ok d0 o0 n0 sys rng hn ho
  refine ⟨⟨o0, n0, sys.platform, sys.oscpu, app.build_version, app.build_id, av,
    app.name, "Mozilla", "Gecko", app.product_sub, app.vendor, "", ua⟩, ?_, rfl, rfl⟩
  simp only [generate_navigator, hpick, hsys, happ, hfmt, hav]

theorem pychoice_singleton (x : α) (k : Nat) (d : α) : pychoice [x] k d = x := by
  simp [pychoice, Nat.mod_one]

theorem filter_values_some_irrel (v : OptValue) (d d' : List String) :
    filter_values (some v) d = filter_values (some v) d' := by
  cases v <;> rfl

/-- C1: for every filter combination whose values pass validation and that
admits at least one compatible triple, `generate_navigator` returns without
raising, and the record's ids together with the internally chosen device type
satisfy all three compatibility mappings. -/
theorem generate_navigator_ok_of_valid_filters {sIds tIds : List String}
    {os nav dt : Option OptValue} (rng : Rng) {ds osl ns : List String}
    (hd : get_option_choices "device_type" dt (default_dev_types os) DEVICE_TYPE_OS_KEYS
      = .ok ds)
    (ho : get_option_choices "os" os OS_NAVIGATOR_KEYS OS_NAVIGATOR_KEYS = .ok osl)
    (hn : get_option_choices "navigator" nav NAVIGATOR_OS_KEYS NAVIGATOR_OS_KEYS = .ok ns)
    (hex : ∃ d ∈ ds, ∃ o ∈ osl, ∃ n ∈ ns, compatTriple (d, o, n)) :
    ∃ cfg d, generate_navigator sIds tIds os nav none dt rng = .ok cfg ∧
      cfg.os_id ∈ DEVICE_TYPE_OS d ∧ cfg.navigator_id ∈ DEVICE_TYPE_NAVIGATOR d ∧
      cfg.navigator_id ∈ OS_NAVIGATOR cfg.os_id := by
  obtain ⟨c, hpick, hcomp, _⟩ := pick_config_ids_ok_of_exists rng hd ho hn hex
  obtain ⟨cfg, hgen, h1, h2⟩ := generate_navigator_ok_of_pick sIds tIds hpick
  refine ⟨cfg, c.1, hgen, ?_, ?_, ?_⟩
  · rw [h1]; exact hcomp.1
  · rw [h2]; exact hcomp.2.1
  · rw [h1, h2]; exact hcomp.2.2

theorem generate_navigator_ok_of_valid_filters_witness :
    (get_option_choices "device_type" none (default_dev_types none) DEVICE_TYPE_OS_KEYS
      = .ok ["desktop"]) ∧
    (get_option_choices "os" none OS_NAVIGATOR_KEYS OS_NAVIGATOR_KEYS
      = .ok ["win", "mac", "linux", "android"]) ∧
    (get_option_choices "navigator" none NAVIGATOR_OS_KEYS NAVIGATOR_OS_KEYS
      = .ok ["chrome", "firefox", "ie"]) ∧
    (∃ d ∈ ["desktop"], ∃ o ∈ ["win", "mac", "linux", "android"],
      ∃ n ∈ ["chrome", "firefox", "ie"], compatTriple (d, o, n)) ∧
    (∃ cfg d, generate_navigator sampleSmartphoneIds sampleTabletIds none none none none
        rngZero = .ok cfg ∧
      cfg.os_id ∈ DEVICE_TYPE_OS d ∧ cfg.navigator_id ∈ DEVICE_TYPE_NAVIGATOR d ∧
      cfg.navigator_id ∈ OS_NAVIGATOR cfg.os_id) :=
  ⟨rfl, rfl, rfl, by decide,
    generate_navigator_ok_of_valid_filters rngZero rfl rfl rfl (by decide)⟩

/-- C4: for every successful generation whose navigator is chrome or ie, the
user agent starts with `"Mozilla/5.0"` and prepending `"Mozilla/"` to the
record's `app_version` yields exactly the user agent. -/
theorem chrome_ie_user_agent_mozilla {sIds tIds : List String}
    {os nav plat dt : Option OptValue} {rng : Rng} {cfg : NavigatorConfig}
    (h : generate_navigator sIds tIds os nav plat dt rng = .ok cfg)
    (hnav : cfg.navigator_id = "chrome" ∨ cfg.navigator_id = "ie") :
    pystartswith cfg.user_agent "Mozilla/5.0" = true ∧
      cfg.user_agent.data = "Mozilla/".data ++ cfg.app_version.data := by
  simp only [generate_navigator] at h
  split at h
  · exact Except.noConfusion h
  split at h
  · exact Except.noConfusion h
  split at h
  · exact Except.noConfusion h
  next sys hsys =>
  split at h
  · exact Except.noConfusion h
  next ua hfmt =>
  split at h
  · exact Except.noConfusion h
  next av hav =>
  rw [Except.ok.injEq] at h
  subst h
  simp only at hnav ⊢
  rw [build_navigator_app_version, if_pos hnav] at hav
  by_cases hm : pystartswith ua "Mozilla/" = true
  · rw [if_pos hm, pysplitOnceTail_of_startswith hm, Option.some.injEq] at hav
    refine ⟨(format_user_agent_template_mozilla hfmt).1, ?_⟩
    rw [← hav]
    exact data_eq_append_of_startswith hm
  · rw [if_neg hm] at hav
    exact Option.noConfusion hav

theorem chrome_ie_user_agent_mozilla_witness :
    ∃ cfg, generate_navigator sampleSmartphoneIds sampleTabletIds (some (.str "win"))
        (some (.str "chrome")) none none rngZero = .ok cfg ∧
      (cfg.navigator_id = "chrome" ∨ cfg.navigator_id = "ie") ∧
      pystartswith cfg.user_agent "Mozilla/5.0" = true ∧
      cfg.user_agent.data = "Mozilla/".data ++ cfg.app_version.data := by
  have hE : generate_navigator sampleSmartphoneIds sampleTabletIds (some (.str "win"))
      (some (.str "chrome")) none none rngZero =
      .ok ((generate_navigator sampleSmartphoneIds sampleTabletIds (some (.str "win"))
        (some (.str "chrome")) none none rngZero).toOption.getD emptyNavigatorConfig) := by
    rfl
  exact ⟨_, hE, Or.inl (by decide), chrome_ie_user_agent_mozilla hE (Or.inl (by decide))⟩

/-- C5: for every combination of filter arguments and every fixed random
draw, `generate_user_agent` is exactly the `user_agent` field of the
`generate_navigator` record (and propagates the very same error when
`generate_navigator` raises). -/
theorem generate_user_agent_refines_navigator (sIds tIds : List String)
    (os nav plat dt : Option OptValue) (rng : Rng) :
    generate_user_agent sIds tIds os nav plat dt rng =
      (generate_navigator sIds tIds os nav plat dt rng).map (fun c => c.user_agent) := rfl

/-- C7: individually valid filters whose product admits no compatible triple
make `generate_navigator` raise the `InvalidOption` conflict error. -/
theorem generate_navigator_conflict {sIds tIds : List String}
    {os nav dt : Option OptValue} (rng : Rng) {ds osl ns : List String}
    (hd : get_option_choices "device_type" dt (default_dev_types os) DEVICE_TYPE_OS_KEYS
      = .ok ds)
    (ho : get_option_choices "os" os OS_NAVIGATOR_KEYS OS_NAVIGATOR_KEYS = .ok osl)
    (hn : get_option_choices "navigator" nav NAVIGATOR_OS_KEYS NAVIGATOR_OS_KEYS = .ok ns)
    (hempty : ∀ d ∈ ds, ∀ o ∈ osl, ∀ n ∈ ns, ¬ compatTriple (d, o, n)) :
    generate_navigator sIds tIds os nav none dt rng =
      .error (.invalidOption
        "Options device_type, os and navigator conflicts with each other") := by
  have hvar : (tripleProduct ds osl ns).filter (fun t => decide (compatTriple t)) = [] := by
    rw [List.filter_eq_nil_iff]
    intro t ht
    obtain ⟨a, b, e⟩ := t
    obtain ⟨h1, h2, h3⟩ := tripleProduct_mem.mp ht
    simp only [decide_eq_true_eq]
    exact hempty a h1 b h2 e h3
  simp only [generate_navigator, pick_config_ids, hd, ho, hn, hvar, reduceIte]

theorem generate_navigator_conflict_witness :
    (get_option_choices "device_type" (some (.str "smartphone"))
      (default_dev_types (some (.str "win"))) DEVICE_TYPE_OS_KEYS = .ok ["smartphone"]) ∧
    (get_option_choices "os" (some (.str "win")) OS_NAVIGATOR_KEYS OS_NAVIGATOR_KEYS
      = .ok ["win"]) ∧
    (get_option_choices "navigator" (some (.str "firefox")) NAVIGATOR_OS_KEYS
      NAVIGATOR_OS_KEYS = .ok ["firefox"]) ∧
    (∀ d ∈ ["smartphone"], ∀ o ∈ ["win"], ∀ n ∈ ["firefox"], ¬ compatTriple (d, o, n)) ∧
    generate_navigator sampleSmartphoneIds sampleTabletIds (some (.str "win"))
        (some (.str "firefox")) none (some (.str "smartphone")) rngZero =
      .error (.invalidOption
        "Options device_type, os and navigator conflicts with each other") :=
  ⟨rfl, rfl, rfl, by decide, generate_navigator_conflict rngZero rfl rfl rfl (by decide)⟩

/-- C8: every triple produced by `pick_config_ids` with os `"android"` uses a
firefox/chrome navigator on a smartphone/tablet device, so the android
assertions of `build_system_components` can never fail on it. -/
theorem pick_config_ids_android_assert_safe {dt os nav : Option OptValue} {rng : Rng}
    {c : String × String × String}
    (hpick : pick_config_ids dt os nav rng = .ok c) (ha : c.2.1 = "android") :
    ((c.2.2 = "firefox" ∨ c.2.2 = "chrome") ∧ (c.1 = "smartphone" ∨ c.1 = "tablet")) ∧
      ∀ (sIds tIds : List String) (rng2 : Rng),
        (build_system_components sIds tIds c.1 c.2.1 c.2.2 rng2).isSome = true := by
  obtain ⟨hcomp, hd, ho, hn⟩ := pick_config_ids_ok_inv hpick
  have hand := compat_android hcomp hd
  exact ⟨hand ha, fun sIds tIds rng2 => build_system_components_isSome sIds tIds rng2 ho hand⟩

theorem pick_config_ids_android_assert_safe_witness :
    (pick_config_ids (some (.str "tablet")) (some (.str "android")) (some (.str "chrome"))
      rngZero = .ok ("tablet", "android", "chrome")) ∧
    ((("chrome" = "firefox" ∨ "chrome" = "chrome") ∧
      ("tablet" = "smartphone" ∨ "tablet" = "tablet")) ∧
      ∀ (sIds tIds : List String) (rng2 : Rng),
        (build_system_components sIds tIds "tablet" "android" "chrome" rng2).isSome = true) := by
  have hpick : pick_config_ids (some (.str "tablet")) (some (.str "android"))
      (some (.str "chrome")) rngZero = .ok ("tablet", "android", "chrome") := rfl
  exact ⟨hpick, pick_config_ids_android_assert_safe hpick rfl⟩

/-- C10: for android + chrome the device model embedded in `ua_platform` is
always drawn from the smartphone catalog, for tablets as well; the tablet
catalog is never consulted (the result is invariant under replacing it). -/
theorem android_chrome_device_from_smartphone_ids
    (sIds tIds tIds' : List String) (d : String) (rng : Rng)
    (hd : d = "smartphone" ∨ d = "tablet") (hne : sIds ≠ []) :
    build_system_components sIds tIds d "android" "chrome" rng =
      build_system_components sIds tIds' d "android" "chrome" rng ∧
    ∃ sys dev_id pv, build_system_components sIds tIds d "android" "chrome" rng = some sys ∧
      dev_id ∈ sIds ∧ pv ∈ OS_PLATFORM "android" ∧
      sys.ua_platform = "Linux; " ++ pv ++ "; " ++ dev_id := by
  refine ⟨rfl, ?_⟩
  rcases hd with rfl | rfl <;>
    exact ⟨_, pychoice sIds rng.androidDevice "",
      pychoice (OS_PLATFORM "android") rng.sysPlatform "",
      rfl, pychoice_mem hne _ _, pychoice_mem (by decide) _ _, rfl⟩

theorem android_chrome_device_from_smartphone_ids_witness :
    (build_system_components sampleSmartphoneIds sampleTabletIds "tablet" "android" "chrome"
        rngZero =
      build_system_components sampleSmartphoneIds [] "tablet" "android" "chrome" rngZero) ∧
    ∃ sys dev_id pv, build_system_components sampleSmartphoneIds sampleTabletIds "tablet"
        "android" "chrome" rngZero = some sys ∧
      dev_id ∈ sampleSmartphoneIds ∧ pv ∈ OS_PLATFORM "android" ∧
      sys.ua_platform = "Linux; " ++ pv ++ "; " ++ dev_id :=
  android_chrome_device_from_smartphone_ids sampleSmartphoneIds sampleTabletIds []
    "tablet" rngZero (Or.inr rfl) (by decide)

theorem firefox_version_ne_nil : FIREFOX_VERSION ≠ [] := by decide

set_option maxRecDepth 8000 in
theorem firefox_dates_le :
    ∀ e ∈ FIREFOX_VERSION, datetimeSecs e.2 ≤ datetimeSecs (datetime 2021 1 6) := by
  decide

theorem firefoxEntry_mem (rng : Rng) : firefoxEntry rng ∈ FIREFOX_VERSION :=
  pychoice_mem firefox_version_ne_nil _ _

theorem firefoxDateToSecs_le (rng : Rng) :
    firefoxDateToSecs rng ≤ datetimeSecs (datetime 2021 1 6) + 86400 := by
  unfold firefoxDateToSecs
  split
  next e heq =>
    exact le_trans (firefox_dates_le e (List.get?_mem heq)) (Nat.le_add_right _ _)
  next heq =>
    have h := firefox_dates_le _ (firefoxEntry_mem rng)
    omega

theorem firefoxBuildTime_le (rng : Rng) :
    firefoxBuildTime rng ≤ datetimeSecs (datetime 2021 1 7) + 100000 := by
  have hoff : rng.ffOffset % ((firefoxBound rng).toNat + 1) ≤ (firefoxBound rng).toNat :=
    Nat.le_of_lt_succ (Nat.mod_lt _ (Nat.succ_pos _))
  have hfrom : datetimeSecs (firefoxEntry rng).2 ≤ datetimeSecs (datetime 2021 1 6) :=
    firefox_dates_le _ (firefoxEntry_mem rng)
  have hto := firefoxDateToSecs_le rng
  have hsecs : datetimeSecs (datetime 2021 1 7) = datetimeSecs (datetime 2021 1 6) + 86400 := by
    decide
  unfold firefoxBuildTime
  rcases le_or_lt ((firefoxDateToSecs rng : Int) -
      (datetimeSecs (firefoxEntry rng).2 : Int) - 1) 100000 with hc | hc
  · have hb : firefoxBound rng = 100000 := max_eq_right hc
    omega
  · have hb : firefoxBound rng = (firefoxDateToSecs rng : Int) -
        (datetimeSecs (firefoxEntry rng).2 : Int) - 1 := max_eq_left (le_of_lt hc)
    omega

theorem civilFromDays_year_lt (z : Nat) (hz : z ≤ 800000) :
    (civilFromDays z).year < 10000 := by
  simp only [civilFromDays]
  split_ifs <;> omega

theorem digitChar_isDigit {n : Nat} (h : n < 10) : (Nat.digitChar n).isDigit = true := by
  interval_cases n <;> decide

theorem pad2_digits (n : Nat) : ∀ c ∈ pad2 n, c.isDigit = true := by
  intro c hc
  simp only [pad2, List.mem_cons, List.not_mem_nil, or_false] at hc
  rcases hc with rfl | rfl
  · exact digitChar_isDigit (Nat.mod_lt _ (by norm_num))
  · exact digitChar_isDigit (Nat.mod_lt _ (by norm_num))

/-- C9: every Firefox build id is a string of exactly 14 decimal digits
(the `YYYYMMDDHHMMSS` timestamp). -/
theorem firefox_build_id_digits (rng : Rng) :
    ((get_firefox_build rng).2).data.length = 14 ∧
      ∀ c ∈ ((get_firefox_build rng).2).data, c.isDigit = true := by
  have hyear : (civilFromDays (firefoxBuildTime rng / 86400)).year < 10000 := by
    apply civilFromDays_year_lt
    have h1 := firefoxBuildTime_le rng
    have h2 : datetimeSecs (datetime 2021 1 7) + 100000 ≤ 800000 * 86400 := by decide
    omega
  show (strftimeYmdHMS (firefoxBuildTime rng)).data.length = 14 ∧
    ∀ c ∈ (strftimeYmdHMS (firefoxBuildTime rng)).data, c.isDigit = true
  unfold strftimeYmdHMS yearChars
  simp only [if_pos hyear]
  constructor
  · simp [pad2]
  · intro c hc
    simp only [List.mem_append, List.mem_cons, List.not_mem_nil, or_false] at hc
    rcases hc with ((((hc | hc) | hc) | hc) | hc) | hc <;>
      first
      | exact pad2_digits _ c hc
      | (rcases hc with rfl | rfl | rfl | rfl <;>
          exact digitChar_isDigit (Nat.mod_lt _ (by norm_num)))

/-- C2 (amended): the sampled Firefox build time never precedes the chosen
release date, exceeds it by at most `max(window - 1s, 100000s)` where the
window runs to the next table entry (one day for the last), and lies strictly
inside `[release, next release)` whenever that window exceeds 100001 seconds. -/
theorem firefox_build_time_window (rng : Rng) :
    datetimeSecs (firefoxEntry rng).2 ≤ firefoxBuildTime rng ∧
    firefoxBuildTime rng ≤ datetimeSecs (firefoxEntry rng).2 + (firefoxBound rng).toNat ∧
    (100000 ≤ (firefoxDateToSecs rng : Int) -
        (datetimeSecs (firefoxEntry rng).2 : Int) - 1 →
      firefoxBuildTime rng < firefoxDateToSecs rng) := by
  have hoff : rng.ffOffset % ((firefoxBound rng).toNat + 1) ≤ (firefoxBound rng).toNat :=
    Nat.le_of_lt_succ (Nat.mod_lt _ (Nat.succ_pos _))
  refine ⟨Nat.le_add_right _ _, Nat.add_le_add_left hoff _, ?_⟩
  intro hspan
  have hb : firefoxBound rng = (firefoxDateToSecs rng : Int) -
      (datetimeSecs (firefoxEntry rng).2 : Int) - 1 := max_eq_left hspan
  unfold firefoxBuildTime
  omega

set_option maxRecDepth 8000 in
theorem firefox_build_time_window_witness :
    (100000 ≤ (firefoxDateToSecs rngZero : Int) -
      (datetimeSecs (firefoxEntry rngZero).2 : Int) - 1) ∧
    firefoxBuildTime rngZero < firefoxDateToSecs rngZero :=
  ⟨by decide, (firefox_build_time_window rngZero).2.2 (by decide)⟩

set_option maxRecDepth 8000 in
/-- C2 (counterexample): drawing the third table entry `("0.10", 2004-09-14)`
— whose successor entry has the very same release date — with offset 100000
produces a build time at least the next entry's release date, contradicting
the claimed `[release, next release)` window. -/
theorem firefox_build_time_window_counterexample :
    firefoxEntry rngC2 = ("0.10", datetime 2004 9 14) ∧
    FIREFOX_VERSION.get? (FIREFOX_VERSION.indexOf (firefoxEntry rngC2) + 1) =
      some ("0.10.1", datetime 2004 9 14) ∧
    ¬ firefoxBuildTime rngC2 < datetimeSecs (datetime 2004 9 14) := by
  refine ⟨by decide, by decide, by decide⟩

theorem android_platforms_start (p : String) (hp : p ∈ OS_PLATFORM "android") :
    pystartswith p "Android" = true := by
  revert p
  decide

/-- C3 (amended): for `os="android"`, `navigator="firefox"`,
`device_type="tablet"`, every generated record's `userAgent` starts with
`"Mozilla/5.0 (Android"` and contains `"; Tablet"`; the `platform` field
does not contain `"; Tablet"`. -/
theorem android_firefox_tablet_js {sIds tIds : List String} {rng : Rng} {js : NavigatorJs}
    (h : generate_navigator_js sIds tIds (some (.str "android")) (some (.str "firefox"))
      none (some (.str "tablet")) rng = .ok js) :
    pystartswith js.userAgent "Mozilla/5.0 (Android" = true ∧
    pycontains js.userAgent "; Tablet" = true ∧
    pycontains js.platform "; Tablet" = false := by
  have h1 : get_option_choices "device_type" (some (.str "tablet"))
      (default_dev_types (some (.str "android"))) DEVICE_TYPE_OS_KEYS = .ok ["tablet"] := rfl
  have h2 : get_option_choices "os" (some (.str "android")) OS_NAVIGATOR_KEYS
      OS_NAVIGATOR_KEYS = .ok ["android"] := rfl
  have h3 : get_option_choices "navigator" (some (.str "firefox")) NAVIGATOR_OS_KEYS
      NAVIGATOR_OS_KEYS = .ok ["firefox"] := rfl
  have hfilt : (tripleProduct ["tablet"] ["android"] ["firefox"]).filter
      (fun t => decide (compatTriple t)) = [("tablet", "android", "firefox")] := rfl
  have hpick : pick_config_ids (some (.str "tablet")) (some (.str "android"))
      (some (.str "firefox")) rng = .ok ("tablet", "android", "firefox") := by
    simp only [pick_config_ids, h1, h2, h3, hfilt, pychoice_singleton, reduceIte]
    rfl
  have hsys : build_system_components sIds tIds "tablet" "android" "firefox" rng =
      some ⟨pychoice (OS_PLATFORM "android") rng.sysPlatform "",
        "Linux " ++ pychoice (OS_CPU "android") rng.sysCpu "",
        pychoice (OS_PLATFORM "android") rng.sysPlatform "" ++ "; Tablet",
        "Linux " ++ pychoice (OS_CPU "android") rng.sysCpu ""⟩ := rfl
  have happ : build_app_components "android" "firefox" rng =
      some ⟨"Netscape", some "20100101", "", (get_firefox_build rng).1,
        some (get_firefox_build rng).2, some (get_firefox_build rng).1, none⟩ := rfl
  have hfmt : format_user_agent_template (choose_ua_template "tablet" "firefox"
      ⟨"Netscape", some "20100101", "", (get_firefox_build rng).1,
        some (get_firefox_build rng).2, some (get_firefox_build rng).1, none⟩)
      ⟨pychoice (OS_PLATFORM "android") rng.sysPlatform "",
        "Linux " ++ pychoice (OS_CPU "android") rng.sysCpu "",
        pychoice (OS_PLATFORM "android") rng.sysPlatform "" ++ "; Tablet",
        "Linux " ++ pychoice (OS_CPU "android") rng.sysCpu ""⟩
      ⟨"Netscape", some "20100101", "", (get_firefox_build rng).1,
        some (get_firefox_build rng).2, some (get_firefox_build rng).1, none⟩ =
      some ("Mozilla/5.0 (" ++ (pychoice (OS_PLATFORM "android") rng.sysPlatform ""
          ++ "; Tablet") ++ "; rv:" ++ (get_firefox_build rng).1 ++ ") Gecko/" ++
        (get_firefox_build rng).1 ++ " Firefox/" ++ (get_firefox_build rng).1) := rfl
  have hav : build_navigator_app_version "android" "firefox"
      (pychoice (OS_PLATFORM "android") rng.sysPlatform "")
      ("Mozilla/5.0 (" ++ (pychoice (OS_PLATFORM "android") rng.sysPlatform ""
          ++ "; Tablet") ++ "; rv:" ++ (get_firefox_build rng).1 ++ ") Gecko/" ++
        (get_firefox_build rng).1 ++ " Firefox/" ++ (get_firefox_build rng).1) =
      some ("5.0 (" ++ pychoice (OS_PLATFORM "android") rng.sysPlatform "" ++ ")") := rfl
  have hgen : generate_navigator sIds tIds (some (.str "android")) (some (.str "firefox"))
      none (some (.str "tablet")) rng = .ok
      ⟨"android", "firefox", "Linux " ++ pychoice (OS_CPU "android") rng.sysCpu "",
        "Linux " ++ pychoice (OS_CPU "android") rng.sysCpu "",
        (get_firefox_build rng).1, some (get_firefox_build rng).2,
        "5.0 (" ++ pychoice (OS_PLATFORM "android") rng.sysPlatform "" ++ ")",
        "Netscape", "Mozilla", "Gecko", some "20100101", "", "",
        "Mozilla/5.0 (" ++ (pychoice (OS_PLATFORM "android") rng.sysPlatform ""
            ++ "; Tablet") ++ "; rv:" ++ (get_firefox_build rng).1 ++ ") Gecko/" ++
          (get_firefox_build rng).1 ++ " Firefox/" ++ (get_firefox_build rng).1⟩ := by
    simp only [generate_navigator, hpick, hsys, happ, hfmt, hav]
  have hjs : generate_navigator_js sIds tIds (some (.str "android")) (some (.str "firefox"))
      none (some (.str "tablet")) rng = .ok
      ⟨"Mozilla", "Netscape",
        "5.0 (" ++ pychoice (OS_PLATFORM "android") rng.sysPlatform "" ++ ")",
        "Linux " ++ pychoice (OS_CPU "android") rng.sysCpu "",
        "Mozilla/5.0 (" ++ (pychoice (OS_PLATFORM "android") rng.sysPlatform ""
            ++ "; Tablet") ++ "; rv:" ++ (get_firefox_build rng).1 ++ ") Gecko/" ++
          (get_firefox_build rng).1 ++ " Firefox/" ++ (get_firefox_build rng).1,
        "Linux " ++ pychoice (OS_CPU "android") rng.sysCpu "", "Gecko",
        some "20100101", "", "", some (get_firefox_build rng).2⟩ := by
    unfold generate_navigator_js
    rw [hgen]
    rfl
  rw [hjs, Except.ok.injEq] at h
  subst h
  have hpv : pystartswith (pychoice (OS_PLATFORM "android") rng.sysPlatform "")
      "Android" = true :=
    android_platforms_start _ (pychoice_mem (by decide) _ _)
  have hpd := data_eq_append_of_startswith hpv
  refine ⟨?_, ?_, ?_⟩
  · show pystartswith ("Mozilla/5.0 (" ++ (pychoice (OS_PLATFORM "android") rng.sysPlatform ""
        ++ "; Tablet") ++ "; rv:" ++ (get_firefox_build rng).1 ++ ") Gecko/" ++
      (get_firefox_build rng).1 ++ " Firefox/" ++ (get_firefox_build rng).1)
      "Mozilla/5.0 (Android" = true
    rw [pystartswith_iff]
    apply data_prefix_append
    apply data_prefix_append
    apply data_prefix_append
    apply data_prefix_append
    apply data_prefix_append
    apply data_prefix_append
    rw [string_data_append, string_data_append, hpd]
    have hsplit : ("Mozilla/5.0 (Android").data = ("Mozilla/5.0 (").data ++ ("Android").data :=
      rfl
    rw [hsplit]
    refine ⟨(pychoice (OS_PLATFORM "android") rng.sysPlatform "").data.drop
      ("Android").data.length ++ ("; Tablet").data, ?_⟩
    simp [List.append_assoc]
  · show pycontains ("Mozilla/5.0 (" ++ (pychoice (OS_PLATFORM "android") rng.sysPlatform ""
        ++ "; Tablet") ++ "; rv:" ++ (get_firefox_build rng).1 ++ ") Gecko/" ++
      (get_firefox_build rng).1 ++ " Firefox/" ++ (get_firefox_build rng).1)
      "; Tablet" = true
    apply pycontains_of_parts _ _
      ("Mozilla/5.0 (" ++ pychoice (OS_PLATFORM "android") rng.sysPlatform "")
      ("; rv:" ++ (get_firefox_build rng).1 ++ ") Gecko/" ++ (get_firefox_build rng).1
        ++ " Firefox/" ++ (get_firefox_build rng).1)
    simp [string_data_append, List.append_assoc]
  · show pycontains ("Linux " ++ pychoice (OS_CPU "android") rng.sysCpu "") "; Tablet" = false
    rw [show OS_CPU "android" = ["armv7l", "armv8l"] from rfl]
    have hcpu := pychoice_mem (show (["armv7l", "armv8l"] : List String) ≠ [] by decide)
      rng.sysCpu ""
    simp only [List.mem_cons, List.not_mem_nil, or_false] at hcpu
    rcases hcpu with hcpu | hcpu <;> rw [hcpu] <;> decide

set_option maxRecDepth 8000 in
theorem android_firefox_tablet_js_witness :
    ∃ js, generate_navigator_js sampleSmartphoneIds sampleTabletIds (some (.str "android"))
        (some (.str "firefox")) none (some (.str "tablet")) rngZero = .ok js ∧
      (pystartswith js.userAgent "Mozilla/5.0 (Android" = true ∧
        pycontains js.userAgent "; Tablet" = true ∧
        pycontains js.platform "; Tablet" = false) := by
  have hE : generate_navigator_js sampleSmartphoneIds sampleTabletIds (some (.str "android"))
      (some (.str "firefox")) none (some (.str "tablet")) rngZero =
      .ok ((generate_navigator_js sampleSmartphoneIds sampleTabletIds (some (.str "android"))
        (some (.str "firefox")) none (some (.str "tablet")) rngZero).toOption.getD
          emptyNavigatorJs) := by
    rfl
  exact ⟨_, hE, android_firefox_tablet_js hE⟩

set_option maxRecDepth 8000 in
/-- C3 (counterexample): a concrete draw for which the generated record's
`platform` field does not contain `"; Tablet"`, refuting the claim that it
always does. -/
theorem android_firefox_tablet_js_counterexample :
    ∃ js, generate_navigator_js sampleSmartphoneIds sampleTabletIds (some (.str "android"))
        (some (.str "firefox")) none (some (.str "tablet")) rngZero = .ok js ∧
      js.platform = "Linux " ++ "armv7l" ∧
      pycontains js.platform "; Tablet" = false := by
  have hE : generate_navigator_js sampleSmartphoneIds sampleTabletIds (some (.str "android"))
      (some (.str "firefox")) none (some (.str "tablet")) rngZero =
      .ok ((generate_navigator_js sampleSmartphoneIds sampleTabletIds (some (.str "android"))
        (some (.str "firefox")) none (some (.str "tablet")) rngZero).toOption.getD
          emptyNavigatorJs) := by
    rfl
  exact ⟨_, hE, by decide, by decide⟩

/-- C6 (amended): a filter whose value list is not expanded by the `"all"`
sentinel and contains an item outside its axis's enumeration makes every
top-level generation function raise `InvalidOption` naming the first such
offending option and value; validation runs in the order device_type, os,
navigator, and errors propagate unchanged to `generate_user_agent` and
`generate_navigator_js`. -/
theorem invalid_filter_value_invalid_option :
    (∀ (sIds tIds : List String) (dtv : OptValue) (os nav plat : Option OptValue)
        (rng : Rng) (item : String),
      "all" ∉ filter_values (some dtv) [] →
      (filter_values (some dtv) []).find? (fun i => !(DEVICE_TYPE_OS_KEYS.contains i))
        = some item →
      generate_navigator sIds tIds os nav plat (some dtv) rng =
        .error (.invalidOption (invalid_item_message "device_type" item))) ∧
    (∀ (sIds tIds : List String) (osv : OptValue) (nav dt : Option OptValue)
        (rng : Rng) (ds : List String) (item : String),
      get_option_choices "device_type" dt (default_dev_types (some osv)) DEVICE_TYPE_OS_KEYS
        = .ok ds →
      "all" ∉ filter_values (some osv) [] →
      (filter_values (some osv) []).find? (fun i => !(OS_NAVIGATOR_KEYS.contains i))
        = some item →
      generate_navigator sIds tIds (some osv) nav none dt rng =
        .error (.invalidOption (invalid_item_message "os" item))) ∧
    (∀ (sIds tIds : List String) (navv : OptValue) (os dt : Option OptValue)
        (rng : Rng) (ds osl : List String) (item : String),
      get_option_choices "device_type" dt (default_dev_types os) DEVICE_TYPE_OS_KEYS
        = .ok ds →
      get_option_choices "os" os OS_NAVIGATOR_KEYS OS_NAVIGATOR_KEYS = .ok osl →
      "all" ∉ filter_values (some navv) [] →
      (filter_values (some navv) []).find? (fun i => !(NAVIGATOR_OS_KEYS.contains i))
        = some item →
      generate_navigator sIds tIds os (some navv) none dt rng =
        .error (.invalidOption (invalid_item_message "navigator" item))) ∧
    (∀ (sIds tIds : List String) (os nav plat dt : Option OptValue) (rng : Rng)
        (e : GenError),
      generate_navigator sIds tIds os nav plat dt rng = .error e →
      generate_user_agent sIds tIds os nav plat dt rng = .error e ∧
      generate_navigator_js sIds tIds os nav plat dt rng = .error e) := by
  refine ⟨?_, ?_, ?_, ?_⟩
  · intro sIds tIds dtv os nav plat rng item hall hfind
    have herr : get_option_choices "device_type" (some dtv)
        (default_dev_types (match plat with | some p => some p | none => os))
        DEVICE_TYPE_OS_KEYS =
        .error (.invalidOption (invalid_item_message "device_type" item)) := by
      simp only [get_option_choices]
      rw [filter_values_some_irrel dtv _ [], if_neg hall, hfind]
    simp only [generate_navigator, pick_config_ids, herr]
  · intro sIds tIds osv nav dt rng ds item hdok hall hfind
    have herr : get_option_choices "os" (some osv) OS_NAVIGATOR_KEYS OS_NAVIGATOR_KEYS =
        .error (.invalidOption (invalid_item_message "os" item)) := by
      simp only [get_option_choices]
      rw [filter_values_some_irrel osv _ [], if_neg hall, hfind]
    simp only [generate_navigator, pick_config_ids, hdok, herr]
  · intro sIds tIds navv os dt rng ds osl item hdok hook hall hfind
    have herr : get_option_choices "navigator" (some navv) NAVIGATOR_OS_KEYS
        NAVIGATOR_OS_KEYS =
        .error (.invalidOption (invalid_item_message "navigator" item)) := by
      simp only [get_option_choices]
      rw [filter_values_some_irrel navv _ [], if_neg hall, hfind]
    simp only [generate_navigator, pick_config_ids, hdok, hook, herr]
  · intro sIds tIds os nav plat dt rng e herr
    constructor
    · unfold generate_user_agent
      rw [herr]
      rfl
    · unfold generate_navigator_js
      rw [herr]
      rfl

theorem invalid_filter_value_invalid_option_witness :
    (generate_navigator sampleSmartphoneIds sampleTabletIds none none none
        (some (.str "bogusdev")) rngZero =
      .error (.invalidOption (invalid_item_message "device_type" "bogusdev"))) ∧
    (generate_navigator sampleSmartphoneIds sampleTabletIds (some (.str "bogusos")) none
        none none rngZero =
      .error (.invalidOption (invalid_item_message "os" "bogusos"))) ∧
    (generate_navigator sampleSmartphoneIds sampleTabletIds none (some (.str "bogusnav"))
        none none rngZero =
      .error (.invalidOption (invalid_item_message "navigator" "bogusnav"))) ∧
    (generate_user_agent sampleSmartphoneIds sampleTabletIds (some (.str "bogusos")) none
        none none rngZero =
      .error (.invalidOption (invalid_item_message "os" "bogusos"))) ∧
    (generate_navigator_js sampleSmartphoneIds sampleTabletIds (some (.str "bogusos")) none
        none none rngZero =
      .error (.invalidOption (invalid_item_message "os" "bogusos"))) := by
  have h2 := invalid_filter_value_invalid_option.2.1 sampleSmartphoneIds sampleTabletIds
    (.str "bogusos") none none rngZero ["desktop", "smartphone", "tablet"] "bogusos"
    rfl (by decide) rfl
  have h4 := invalid_filter_value_invalid_option.2.2.2 sampleSmartphoneIds sampleTabletIds
    (some (.str "bogusos")) none none none rngZero _ h2
  exact ⟨invalid_filter_value_invalid_option.1 sampleSmartphoneIds sampleTabletIds
      (.str "bogusdev") none none none rngZero "bogusdev" (by decide) rfl,
    h2,
    invalid_filter_value_invalid_option.2.2.1 sampleSmartphoneIds sampleTabletIds
      (.str "bogusnav") none none rngZero ["desktop"] ["win", "mac", "linux", "android"]
      "bogusnav" rfl rfl (by decide) rfl,
    h4.1, h4.2⟩

/-- C6 (counterexample): the list `["all", "bogus"]` contains the value
`"bogus"`, which is not a member of the os enumeration and is not the
sentinel, yet the call succeeds, because the `"all"` sentinel replaces the
whole list before validation. -/
theorem invalid_filter_value_counterexample :
    ("bogus" ∈ ["all", "bogus"] ∧ "bogus" ∉ OS_NAVIGATOR_KEYS ∧ "bogus" ≠ "all") ∧
    (generate_navigator sampleSmartphoneIds sampleTabletIds (some (.list ["all", "bogus"]))
      none none none rngZero).isOk = true :=
  ⟨by decide, rfl⟩

end UserAgent
